import Mathlib

/-!
Verification development for the Createnko backend (trend analysis,
script/description generation, webpage URL detection, and the
competitor-insight script compiler of the HTTP gateway).

The Python services are shallowly embedded: Python dictionaries with a fixed
schema become structures (a `.get(key, default)` on an optional key becomes
`Option.getD`), Python lists become `List`, `collections.Counter` becomes an
association list in first-insertion order, CPython `float` statistics are
modelled over exact rationals `ℚ`, `datetime` values become an explicit
record with an optional UTC offset, and the only runtime exception the typed
services can raise (comparing an offset-aware with an offset-naive datetime)
is modelled with `Except`.  All string primitives are re-implemented
structurally over `List Char` so that every definition evaluates inside the
kernel.
-/

/-! ## Python-style string primitives (structural, kernel-evaluable) -/

/-- Python `str.lower()` (ASCII letters; the corpora analysed are ASCII). -/
def pyLower (s : String) : String := String.mk (s.data.map Char.toLower)

/-- Python `str.upper()` (ASCII letters). -/
def pyUpper (s : String) : String := String.mk (s.data.map Char.toUpper)

/-- Python `str.title()`: the first letter of every alphabetic run is
uppercased, the rest lowercased. -/
def pyTitleAux : Bool → List Char → List Char
  | _, [] => []
  | prevAlpha, c :: rest =>
    if c.isAlpha then
      (if prevAlpha then c.toLower else c.toUpper) :: pyTitleAux true rest
    else
      c :: pyTitleAux false rest

def pyTitle (s : String) : String := String.mk (pyTitleAux false s.data)

/-- Occurrence test of `needle` inside `hay` (Python `needle in hay` on
strings), decided prefix-by-suffix. -/
def containsList (needle : List Char) : List Char → Bool
  | [] => needle.isEmpty
  | c :: rest => needle.isPrefixOf (c :: rest) || containsList needle rest

/-- Python `needle in hay` for strings. -/
def pyIn (needle hay : String) : Bool := containsList needle.data hay.data

/-- Python `s.startswith(p)`. -/
def pyStartsWith (s p : String) : Bool := p.data.isPrefixOf s.data

/-- Python `s.endswith(p)`. -/
def pyEndsWith (s p : String) : Bool := p.data.isSuffixOf s.data

/-- Python `str.strip()` on both ends (ASCII whitespace). -/
def pyStrip (s : String) : String :=
  String.mk (((s.data.dropWhile Char.isWhitespace).reverse.dropWhile Char.isWhitespace).reverse)

/-- Python `str.strip(chars)`: drop any of `chars` from both ends. -/
def pyStripSet (s : String) (chars : List Char) : String :=
  String.mk (((s.data.dropWhile (chars.contains ·)).reverse.dropWhile (chars.contains ·)).reverse)

/-- Python `s.replace(pat, rep)` for a single-character pattern (both uses in
the sources replace a one-character pattern: `'Z'` and `'*'`); every
occurrence is replaced. -/
def pyReplaceChar (s : String) (pat : Char) (rep : String) : String :=
  String.mk (s.data.foldr (fun c acc => if c = pat then rep.data ++ acc else c :: acc) [])

/-- Python slicing `s[:n]`. -/
def pyTake (s : String) (n : Nat) : String := String.mk (s.data.take n)

/-- Fuelled worker for `pySplitOn` (structural recursion on the fuel so the
kernel can evaluate it; the fuel is the length of the text plus one). -/
def pySplitAux (sep : List Char) : Nat → List Char → List Char → List (List Char)
  | 0, l, acc => [acc.reverse ++ l]
  | fuel + 1, l, acc =>
    match l with
    | [] => [acc.reverse]
    | c :: rest =>
      if sep.isPrefixOf (c :: rest) then
        acc.reverse :: pySplitAux sep fuel ((c :: rest).drop sep.length) []
      else
        pySplitAux sep fuel rest (c :: acc)

/-- Python `s.split(sep)` for a non-empty separator: non-overlapping leftmost
splits, empty pieces kept. -/
def pySplitOn (s sep : String) : List String :=
  (pySplitAux sep.data (s.data.length + 1) s.data []).map String.mk

/-- Python `s.split()` with no argument: split on whitespace runs, dropping
empty pieces. -/
def pySplitWs (s : String) : List String :=
  ((s.data.splitOnP Char.isWhitespace).map String.mk).filter (fun w => w ≠ "")

/-- Sequential string accumulation (`out = ""; out += seg; ...`). -/
def concatAll : List String → String
  | [] => ""
  | s :: rest => s ++ concatAll rest

/-- Python `", ".join l` is `String.intercalate`; repeated characters
(`"=" * 80`). -/
def pyRepeat (c : Char) (n : Nat) : String := String.mk (List.replicate n c)

/-- First-occurrence deduplication. Python iterates `set(...)` in a
hash-dependent order; the claims proved below never depend on that order, and
we fix the first-occurrence order. -/
def dedupFirst [DecidableEq α] (l : List α) : List α :=
  l.foldl (fun acc x => if x ∈ acc then acc else acc ++ [x]) []

/-! ## `collections.Counter` and Python's stable sort -/

/-- Add one occurrence of `k` to a counter kept as an association list in
first-insertion order (CPython dict order). -/
def counterBump [DecidableEq α] (c : List (α × Nat)) (k : α) : List (α × Nat) :=
  if c.any (fun kv => kv.1 = k) then
    c.map (fun kv => if kv.1 = k then (kv.1, kv.2 + 1) else kv)
  else
    c ++ [(k, 1)]

/-- `Counter.update` with a list of keys. -/
def counterUpdate [DecidableEq α] (c : List (α × Nat)) (ks : List α) : List (α × Nat) :=
  ks.foldl counterBump c

/-- `Counter(iterable)`. -/
def counterOf [DecidableEq α] (ks : List α) : List (α × Nat) := counterUpdate [] ks

/-- Stable insertion below every entry whose count is at least the new
entry's count (descending order, ties keep the earlier entry first, matching
Python's stable `sorted(..., reverse=True)` by count). -/
def insertByCountDesc (x : α × Nat) : List (α × Nat) → List (α × Nat)
  | [] => [x]
  | y :: ys => if x.2 ≤ y.2 then y :: insertByCountDesc x ys else x :: y :: ys

/-- Stable sort by count, descending. -/
def sortByCountDesc (l : List (α × Nat)) : List (α × Nat) :=
  l.foldl (fun acc x => insertByCountDesc x acc) []

/-- `Counter.most_common(n)`. -/
def mostCommon (c : List (α × Nat)) (n : Nat) : List (α × Nat) :=
  (sortByCountDesc c).take n

/-- Python `max(items, key=count)[0]`-style selection: the first key whose
count is maximal (Python's `max` keeps the first of equal elements). -/
def maxByCountFirst (l : List (α × Nat)) (dflt : α) : α :=
  match l with
  | [] => dflt
  | x :: rest => (rest.foldl (fun best y => if best.2 < y.2 then y else best) x).1

/-! ## Rational statistics (CPython float arithmetic modelled exactly) -/

/-- Round half to even on `ℚ` (Python `round`'s tie-breaking rule). -/
def roundHalfEven (q : ℚ) : ℤ :=
  let f : ℤ := ⌊q⌋
  let r : ℚ := q - (f : ℚ)
  if r < 1/2 then f
  else if 1/2 < r then f + 1
  else if f % 2 = 0 then f else f + 1

/-- Python `round(q, ndigits)` modelled over exact rationals. -/
def pyRound (q : ℚ) (ndigits : Nat) : ℚ :=
  (roundHalfEven (q * (10 ^ ndigits : ℕ)) : ℚ) / (10 ^ ndigits : ℕ)

/-! ## `datetime` (naive or offset-aware), ISO-8601 parsing, comparison -/

/-- A Python `datetime` value: calendar/clock fields plus an optional UTC
offset in minutes (`tz = none` is offset-naive). -/
structure PyDateTime where
  year : Nat
  month : Nat
  day : Nat
  hour : Nat
  minute : Nat
  second : Nat
  tz : Option Int
deriving DecidableEq, Repr

/-- Days since 1970-01-01 of a civil date (standard era-based algorithm). -/
def daysFromCivil (y m d : Int) : Int :=
  let y' : Int := if m ≤ 2 then y - 1 else y
  let era : Int := (if 0 ≤ y' then y' else y' - 399) / 400
  let yoe : Int := y' - era * 400
  let mp : Int := (m + 9) % 12
  let doy : Int := (153 * mp + 2) / 5 + d - 1
  let doe : Int := yoe * 365 + yoe / 4 - yoe / 100 + doy
  era * 146097 + doe - 719468

/-- Wall-clock seconds of the fields (ignoring the offset). -/
def wallSeconds (dt : PyDateTime) : Int :=
  daysFromCivil dt.year dt.month dt.day * 86400
    + (dt.hour : Int) * 3600 + (dt.minute : Int) * 60 + (dt.second : Int)

/-- Python's `<` on two datetimes: naive pairs compare by wall clock, aware
pairs by UTC-adjusted instant, and a mixed pair raises `TypeError`. -/
def pyDTLt (a b : PyDateTime) : Except String Bool :=
  match a.tz, b.tz with
  | none, none => .ok (decide (wallSeconds a < wallSeconds b))
  | some x, some y => .ok (decide (wallSeconds a - x * 60 < wallSeconds b - y * 60))
  | _, _ => .error "can\x27t compare offset-naive and offset-aware datetimes"

/-- Python `min(dates)` (`for d: if d < best: best = d`). -/
def pyMinDates : List PyDateTime → Except String PyDateTime
  | [] => .error "min() arg is an empty sequence"
  | d :: rest =>
    rest.foldlM (fun best x => do pure (if (← pyDTLt x best) then x else best)) d

/-- Python `max(dates)` (`for d: if best < d: best = d`). -/
def pyMaxDates : List PyDateTime → Except String PyDateTime
  | [] => .error "max() arg is an empty sequence"
  | d :: rest =>
    rest.foldlM (fun best x => do pure (if (← pyDTLt best x) then x else best)) d

/-- `d.replace(tzinfo=None)`. -/
def stripTz (dt : PyDateTime) : PyDateTime := { dt with tz := none }

/-- `(a - b).days` for two naive datetimes: `timedelta.days` floors towards
minus infinity. -/
def timedeltaDays (a b : PyDateTime) : Int :=
  Int.fdiv (wallSeconds a - wallSeconds b) 86400

def pad2 (n : Nat) : String := if n < 10 then "0" ++ toString n else toString n

def pad4 (n : Nat) : String :=
  if n < 10 then "000" ++ toString n
  else if n < 100 then "00" ++ toString n
  else if n < 1000 then "0" ++ toString n
  else toString n

/-- Python `datetime.isoformat()` for whole-second datetimes. -/
def pyIsoformat (dt : PyDateTime) : String :=
  pad4 dt.year ++ "-" ++ pad2 dt.month ++ "-" ++ pad2 dt.day ++ "T"
    ++ pad2 dt.hour ++ ":" ++ pad2 dt.minute ++ ":" ++ pad2 dt.second
    ++ match dt.tz with
       | none => ""
       | some off =>
         (if 0 ≤ off then "+" else "-")
           ++ pad2 (off.natAbs / 60) ++ ":" ++ pad2 (off.natAbs % 60)

def digitVal (c : Char) : Option Nat :=
  if '0' ≤ c ∧ c ≤ '9' then some (c.toNat - 48) else none

/-- Two decimal digits. -/
def parse2 : List Char → Option (Nat × List Char)
  | a :: b :: rest => do
    let x ← digitVal a
    let y ← digitVal b
    pure (x * 10 + y, rest)
  | _ => none

/-- Four decimal digits. -/
def parse4 : List Char → Option (Nat × List Char)
  | a :: b :: c :: d :: rest => do
    let x ← digitVal a
    let y ← digitVal b
    let z ← digitVal c
    let w ← digitVal d
    pure (((x * 10 + y) * 10 + z) * 10 + w, rest)
  | _ => none

def expectChar (c : Char) : List Char → Option (List Char)
  | x :: rest => if x = c then some rest else none
  | [] => none

def isLeapYear (y : Nat) : Bool :=
  y % 4 = 0 && (y % 100 ≠ 0 || y % 400 = 0)

def daysInMonth (y m : Nat) : Nat :=
  if m = 2 then (if isLeapYear y then 29 else 28)
  else if m = 4 ∨ m = 6 ∨ m = 9 ∨ m = 11 then 30
  else 31

/-- The optional `HH:MM[:SS]` time tail and then the optional `±HH:MM`
offset (the subset of `datetime.fromisoformat` the ad timestamps use). -/
def parseTimeAndOffset : List Char → Option (Nat × Nat × Nat × Option Int)
  | rest => do
    let (h, rest) ← parse2 rest
    if h > 23 then none else
    match rest with
    | [] => pure (h, 0, 0, none)
    | _ => do
      let rest ← expectChar ':' rest
      let (mi, rest) ← parse2 rest
      if mi > 59 then none else
      match rest with
      | [] => pure (h, mi, 0, none)
      | ':' :: rest' => do
        let (s, rest'') ← parse2 rest'
        if s > 59 then none else
        match rest'' with
        | [] => pure (h, mi, s, none)
        | sign :: offRest => do
          if sign = '+' ∨ sign = '-' then do
            let (oh, offRest) ← parse2 offRest
            let offRest ← expectChar ':' offRest
            let (om, offRest) ← parse2 offRest
            if oh > 23 ∨ om > 59 ∨ offRest ≠ [] then none
            else
              let off : Int := (oh : Int) * 60 + (om : Int)
              pure (h, mi, s, some (if sign = '-' then -off else off))
          else none
      | sign :: offRest => do
        if sign = '+' ∨ sign = '-' then do
          let (oh, offRest) ← parse2 offRest
          let offRest ← expectChar ':' offRest
          let (om, offRest) ← parse2 offRest
          if oh > 23 ∨ om > 59 ∨ offRest ≠ [] then none
          else
            let off : Int := (oh : Int) * 60 + (om : Int)
            pure (h, mi, 0, some (if sign = '-' then -off else off))
        else none

/-- Python `datetime.fromisoformat` on the `YYYY-MM-DD[*HH:MM[:SS]][±HH:MM]`
shapes the ad-library timestamps take; `none` models `ValueError`. -/
def pyFromIso (s : String) : Option PyDateTime := do
  let cs := s.data
  let (y, rest) ← parse4 cs
  let rest ← expectChar '-' rest
  let (mo, rest) ← parse2 rest
  let rest ← expectChar '-' rest
  let (d, rest) ← parse2 rest
  if mo < 1 ∨ mo > 12 ∨ d < 1 ∨ d > daysInMonth y mo then none
  else
    match rest with
    | [] => pure { year := y, month := mo, day := d, hour := 0, minute := 0, second := 0, tz := none }
    | _ :: timePart => do
      let (h, mi, s, off) ← parseTimeAndOffset timePart
      pure { year := y, month := mo, day := d, hour := h, minute := mi, second := s, tz := off }

/-- The source's start-date parsing: a trailing `Z` is first replaced (every
occurrence, as `str.replace` does) by `+00:00`. -/
def parseStartDate (s : String) : Option PyDateTime :=
  if pyEndsWith s "Z" then pyFromIso (pyReplaceChar s 'Z' "+00:00")
  else pyFromIso s

/-! ## Trend Analysis Engine (`src/services/trend_analysis_service.py`)

Ad records are typed according to the spec's data model; `.get(key)` on a
possibly-missing key becomes an `Option` field. -/

namespace TrendAnalysisService

/-- One advertisement record fetched from the ad-library platform. -/
structure AdRecord where
  id : Option String := none
  page_name : Option String := none
  media_type : Option String := none
  media_url : Option String := none
  body : Option String := none
  start_date : Option String := none
  end_date : Option String := none
  ad_creative_bodies : List String := []
  ad_creative_link_captions : List String := []
  ad_creative_link_descriptions : List String := []
  ad_creative_link_titles : List String := []
  currency : Option String := none
  estimated_audience_size_lower : Option Nat := none
  estimated_audience_size_upper : Option Nat := none
  languages : List String := []
  publisher_platforms : List String := []
  region_distribution : List (String × Nat) := []
deriving DecidableEq, Repr

def isAsciiAlpha (c : Char) : Bool := ('a' ≤ c && c ≤ 'z') || ('A' ≤ c && c ≤ 'Z')

def isAsciiDigit (c : Char) : Bool := '0' ≤ c && c ≤ '9'

/-- A regex word character, `[A-Za-z0-9_]` (what `\b` tests against). -/
def isWordChar (c : Char) : Bool := isAsciiAlpha c || isAsciiDigit c || c = '_'

/-- Fuelled scanner for `re.findall(r'\b[a-zA-Z]{m,}\b', text)`: a maximal
ASCII-alphabetic run is a token when its length is at least `minLen` and the
adjacent characters (when they exist) are not word characters; by maximality
the adjacent characters are non-alphabetic, so only digits and underscores
block a run, exactly as the word-boundary `\b` does. -/
def tokensAux (minLen : Nat) : Nat → Option Char → List Char → List String
  | 0, _, _ => []
  | _ + 1, _, [] => []
  | fuel + 1, prev, c :: rest =>
    if isAsciiAlpha c then
      let run := c :: rest.takeWhile isAsciiAlpha
      let rest' := rest.dropWhile isAsciiAlpha
      let ok := decide (minLen ≤ run.length)
        && !(match prev with | some p => isWordChar p | none => false)
        && !(match rest'.head? with | some n => isWordChar n | none => false)
      (if ok then [String.mk run] else []) ++ tokensAux minLen fuel (some c) rest'
    else
      tokensAux minLen fuel (some c) rest

/-- `re.findall(r'\b[a-zA-Z]{minLen,}\b', s)`. -/
def reFindAllWords (minLen : Nat) (s : String) : List String :=
  tokensAux minLen (s.data.length + 1) none s.data

/-- The fixed stop-word set of `_analyze_word_frequency`, transcribed in
source order (the Python set literal repeats a few words; membership is what
matters). -/
def stop_words : List String :=
  ["the", "and", "for", "are", "but", "not", "you", "all", "can", "had",
   "her", "was", "one", "our", "out", "day", "get", "has", "him", "his",
   "how", "its", "may", "new", "now", "old", "see", "two", "way", "who",
   "boy", "did", "man", "oil", "sit", "try", "use", "she", "put", "end",
   "why", "let", "big", "few", "got", "run", "yes", "any", "ask", "came",
   "give", "help", "just", "know", "like", "look", "make", "most", "over",
   "some", "take", "than", "them", "very", "what", "when", "with", "have",
   "this", "will", "your", "from", "they", "been", "good", "much", "some",
   "time", "very", "when", "come", "here", "just", "like", "long", "make",
   "many", "over", "such", "take", "than", "them", "well", "were"]

/-- `_analyze_word_frequency`: per text, tokens are the lower-cased
alphabetic runs of length at least 3; stop words and words of length at most
3 are dropped; the top 20 by count are returned. -/
def _analyze_word_frequency (texts : List String) : List (String × Nat) :=
  let word_count := texts.foldl (fun c t => counterUpdate c (reFindAllWords 3 (pyLower t))) []
  let filtered := word_count.filter (fun kv => !stop_words.contains kv.1 && decide (3 < kv.1.length))
  mostCommon filtered 20

/-- Adjacent two-word phrases, `words[i] + " " + words[i+1]`. -/
def adjacentPairs (ws : List String) : List String :=
  (ws.zip ws.tail).map (fun p => p.1 ++ " " ++ p.2)

/-- `_analyze_phrase_patterns`: the tokens here are the lower-cased
alphabetic runs of length at least 1 (the source's regex is
`\b[a-zA-Z]+\b`, not the `{3,}` of word frequency); top 15 adjacent pairs. -/
def _analyze_phrase_patterns (texts : List String) : List (String × Nat) :=
  let phrases := texts.foldl (fun c t => counterUpdate c (adjacentPairs (reFindAllWords 1 (pyLower t)))) []
  mostCommon phrases 15

def theme_keywords : List (String × List String) :=
  [("discount", ["sale", "discount", "off", "deal", "save", "cheap"]),
   ("new_product", ["new", "latest", "fresh", "innovative", "breakthrough"]),
   ("quality", ["premium", "quality", "best", "top", "excellent", "superior"]),
   ("convenience", ["easy", "simple", "quick", "fast", "convenient"]),
   ("social_proof", ["popular", "trending", "loved", "recommended", "trusted"]),
   ("urgency", ["limited", "hurry", "act now", "don\x27t miss", "expires"]),
   ("lifestyle", ["lifestyle", "life", "daily", "everyday", "routine"])]

/-- `_extract_themes`: per (text, keyword) pair with the keyword occurring in
the lower-cased text the theme's tally is bumped; themes sorted by tally
descending (stable), top 5 names. -/
def _extract_themes (texts : List String) : List String :=
  let themes := texts.foldl (fun acc t =>
    theme_keywords.foldl (fun acc' pair =>
      pair.2.foldl (fun acc'' kw =>
        if pyIn kw (pyLower t) then counterBump acc'' pair.1 else acc'') acc') acc) []
  ((sortByCountDesc themes).take 5).map Prod.fst

/-- Count held by a counter at a key (`counter.get(k, 0)` /
`counter[k]` after `Counter`). -/
def countOf [DecidableEq α] (c : List (α × Nat)) (k : α) : Nat :=
  ((c.find? (fun kv => decide (kv.1 = k))).map Prod.snd).getD 0

def schemeValidChar (c : Char) : Bool :=
  isAsciiAlpha c || isAsciiDigit c || c = '+' || c = '-' || c = '.'

/-- `urllib.parse.urlparse(url)` restricted to the `(netloc, path)` pair the
service consumes, for scheme-qualified or plain URLs. -/
def pyUrlparseNetlocPath (url : String) : String × String :=
  let cs := url.data
  let rest :=
    match cs.span (fun c => decide (c ≠ ':')) with
    | (before, after) =>
      match after with
      | ':' :: tail =>
        match before with
        | [] => cs
        | c0 :: others => if isAsciiAlpha c0 && others.all schemeValidChar then tail else cs
      | _ => cs
  if "//".data.isPrefixOf rest then
    let r2 := rest.drop 2
    let netloc := r2.takeWhile (fun c => decide (c ≠ '/' ∧ c ≠ '?' ∧ c ≠ '#'))
    let r3 := r2.dropWhile (fun c => decide (c ≠ '/' ∧ c ≠ '?' ∧ c ≠ '#'))
    let path := r3.takeWhile (fun c => decide (c ≠ '?' ∧ c ≠ '#'))
    (String.mk netloc, String.mk path)
  else
    ("", String.mk (rest.takeWhile (fun c => decide (c ≠ '?' ∧ c ≠ '#'))))

structure UrlPatterns where
  domains : List (String × Nat)
  file_extensions : List (String × Nat)
deriving DecidableEq, Repr

/-- `_extract_url_patterns`: top 5 domains and top 5 file extensions of the
given (possibly missing) URLs; `none` is the empty dict returned for an
empty URL list. -/
def _extract_url_patterns (urls : List (Option String)) : Option UrlPatterns :=
  if urls.isEmpty then none
  else
    let step := fun (st : List (String × Nat) × List (String × Nat)) (u : Option String) =>
      match u with
      | none => st
      | some url =>
        if url = "" then st
        else
          let (netloc, path) := pyUrlparseNetlocPath url
          let domains := counterBump st.1 netloc
          let exts :=
            if pyIn "." path then
              counterBump st.2 (pyLower (((pySplitOn path ".").getLast?).getD ""))
            else st.2
          (domains, exts)
    let st := urls.foldl step ([], [])
    some { domains := mostCommon st.1 5, file_extensions := mostCommon st.2 5 }

structure ImagePatterns where
  total_images : Nat
  image_url_patterns : Option UrlPatterns
deriving DecidableEq, Repr

def _analyze_image_patterns (image_ads : List AdRecord) : ImagePatterns :=
  { total_images := image_ads.length,
    image_url_patterns := _extract_url_patterns (image_ads.map (·.media_url)) }

structure VideoPatterns where
  total_videos : Nat
  video_url_patterns : Option UrlPatterns
deriving DecidableEq, Repr

def _analyze_video_patterns (video_ads : List AdRecord) : VideoPatterns :=
  { total_videos := video_ads.length,
    video_url_patterns := _extract_url_patterns (video_ads.map (·.media_url)) }

structure VisualStyleIndicators where
  image_count : Nat
  style_indicators : String
deriving DecidableEq, Repr

def _extract_visual_style_indicators (image_ads : List AdRecord) : VisualStyleIndicators :=
  { image_count := image_ads.length,
    style_indicators := "Requires image analysis for detailed visual trends" }

structure VideoFormatIndicators where
  video_count : Nat
  format_indicators : String
deriving DecidableEq, Repr

def _extract_video_format_indicators (video_ads : List AdRecord) : VideoFormatIndicators :=
  { video_count := video_ads.length,
    format_indicators := "Requires video analysis for detailed format trends" }

structure VisualTrends where
  image_count : Nat
  image_patterns : ImagePatterns
  visual_style_indicators : VisualStyleIndicators
deriving DecidableEq, Repr

/-- `_analyze_visual_trends` (the `none` branch is the `{}` returned for an
empty image-ad list). -/
def _analyze_visual_trends (image_ads : List AdRecord) : Option VisualTrends :=
  if image_ads.isEmpty then none
  else some
    { image_count := image_ads.length,
      image_patterns := _analyze_image_patterns image_ads,
      visual_style_indicators := _extract_visual_style_indicators image_ads }

structure VideoTrends where
  video_count : Nat
  video_patterns : VideoPatterns
  video_format_indicators : VideoFormatIndicators
deriving DecidableEq, Repr

def _analyze_video_trends (video_ads : List AdRecord) : Option VideoTrends :=
  if video_ads.isEmpty then none
  else some
    { video_count := video_ads.length,
      video_patterns := _analyze_video_patterns video_ads,
      video_format_indicators := _extract_video_format_indicators video_ads }

def emotional_keywords : List (String × List String) :=
  [("positive", ["amazing", "awesome", "fantastic", "great", "wonderful", "excellent", "perfect", "love", "best", "incredible"]),
   ("urgent", ["hurry", "limited", "expires", "act now", "don\x27t miss", "last chance", "quickly", "immediately"]),
   ("exclusive", ["exclusive", "limited", "special", "unique", "only", "rare", "premium", "vip"]),
   ("social", ["share", "follow", "join", "community", "friends", "family", "together", "connect"])]

def _analyze_emotional_tone (texts : List String) : List (String × Nat) :=
  texts.foldl (fun acc t =>
    emotional_keywords.foldl (fun acc' pair =>
      pair.2.foldl (fun acc'' kw =>
        if pyIn kw (pyLower t) then counterBump acc'' pair.1 else acc'') acc') acc) []

def cta_patterns_list : List String :=
  ["buy now", "shop now", "get it", "order now", "click here", "learn more",
   "sign up", "join now", "start now", "try now", "download", "subscribe",
   "book now", "reserve", "claim", "grab", "snag", "score"]

def _analyze_cta_patterns (texts : List String) : List (String × Nat) :=
  let cta_counts := texts.foldl (fun acc t =>
    cta_patterns_list.foldl (fun acc' cta =>
      if pyIn cta (pyLower t) then counterBump acc' cta else acc') acc) []
  mostCommon cta_counts 10

def value_keywords : List (String × List String) :=
  [("price", ["free", "cheap", "affordable", "budget", "low cost", "discount", "save"]),
   ("quality", ["premium", "quality", "best", "top", "excellent", "superior", "high-end"]),
   ("convenience", ["easy", "simple", "quick", "fast", "convenient", "effortless"]),
   ("results", ["results", "outcomes", "benefits", "improve", "enhance", "boost"]),
   ("guarantee", ["guarantee", "warranty", "promise", "assurance", "risk-free"])]

def _analyze_value_propositions (texts : List String) : List (String × Nat) :=
  texts.foldl (fun acc t =>
    value_keywords.foldl (fun acc' pair =>
      pair.2.foldl (fun acc'' kw =>
        if pyIn kw (pyLower t) then counterBump acc'' pair.1 else acc'') acc') acc) []

def _identify_messaging_strategies (texts : List String) : List String :=
  let all_text := pyLower (String.intercalate " " texts)
  (if ["story", "journey", "experience"].any (fun w => pyIn w all_text) then ["storytelling"] else [])
  ++ (if ["problem", "solution", "fix", "solve"].any (fun w => pyIn w all_text) then ["problem-solution"] else [])
  ++ (if ["before", "after", "transformation", "change"].any (fun w => pyIn w all_text) then ["before-after"] else [])
  ++ (if ["testimonial", "review", "customer", "user"].any (fun w => pyIn w all_text) then ["social_proof"] else [])
  ++ (if ["exclusive", "limited", "special", "only"].any (fun w => pyIn w all_text) then ["scarcity"] else [])

structure MessagingTrends where
  emotional_tone : List (String × Nat)
  cta_patterns : List (String × Nat)
  value_propositions : List (String × Nat)
  messaging_strategies : List String
deriving DecidableEq, Repr

/-- Truthy body text of an ad (`ad.get('body')` is truthy). -/
def truthyBody (ad : AdRecord) : Bool := (ad.body.getD "") ≠ ""

/-- The non-empty body texts, in ad order (`[ad.get('body','') for ad in
ads_data if ad.get('body')]`). -/
def bodiesOf (ads_data : List AdRecord) : List String :=
  (ads_data.filter truthyBody).map (fun ad => ad.body.getD "")

def _analyze_messaging_trends (ads_data : List AdRecord) : MessagingTrends :=
  let all_text := bodiesOf ads_data
  { emotional_tone := _analyze_emotional_tone all_text,
    cta_patterns := _analyze_cta_patterns all_text,
    value_propositions := _analyze_value_propositions all_text,
    messaging_strategies := _identify_messaging_strategies all_text }

structure FormatPreferences where
  format_distribution : List (String × Nat)
  preferred_format : String
deriving DecidableEq, Repr

def mediaTypeCounter (ads_data : List AdRecord) : List (String × Nat) :=
  counterOf (ads_data.map (fun ad => ad.media_type.getD "UNKNOWN"))

def _analyze_format_preferences (ads_data : List AdRecord) : FormatPreferences :=
  let formats := mediaTypeCounter ads_data
  { format_distribution := formats,
    preferred_format := (((mostCommon formats 1).head?).map Prod.fst).getD "Unknown" }

structure TextLengthDistribution where
  short_0_50 : Nat
  medium_51_150 : Nat
  long_151_plus : Nat
deriving DecidableEq, Repr

def _analyze_text_length_distribution (ads_data : List AdRecord) : Option TextLengthDistribution :=
  let lengths := (bodiesOf ads_data).map String.length
  if lengths.isEmpty then none
  else some
    { short_0_50 := (lengths.filter (fun l => decide (l ≤ 50))).length,
      medium_51_150 := (lengths.filter (fun l => decide (51 ≤ l ∧ l ≤ 150))).length,
      long_151_plus := (lengths.filter (fun l => decide (150 < l))).length }

structure StructurePatterns where
  average_text_length : ℚ
  text_length_distribution : Option TextLengthDistribution
deriving DecidableEq, Repr

def _analyze_structure_patterns (ads_data : List AdRecord) : StructurePatterns :=
  { average_text_length :=
      if ads_data.isEmpty then 0
      else ((ads_data.map (fun ad => ((ad.body.getD "").length : ℚ))).sum) / (ads_data.length : ℚ),
    text_length_distribution := _analyze_text_length_distribution ads_data }

structure FormatTrends where
  format_distribution : List (String × Nat)
  format_preferences : FormatPreferences
  structure_patterns : StructurePatterns
deriving DecidableEq, Repr

def _analyze_format_trends (ads_data : List AdRecord) : FormatTrends :=
  { format_distribution := mediaTypeCounter ads_data,
    format_preferences := _analyze_format_preferences ads_data,
    structure_patterns := _analyze_structure_patterns ads_data }

def _generate_content_recommendations (ads_data : List AdRecord) : List String :=
  let text_lengths := (bodiesOf ads_data).map String.length
  let lengthRecs :=
    if text_lengths.isEmpty then []
    else
      let avg : ℚ := ((text_lengths.map (fun l => (l : ℚ))).sum) / (text_lengths.length : ℚ)
      if avg < 50 then ["Consider longer, more descriptive content for better engagement"]
      else if 200 < avg then ["Consider shorter, more concise messaging for better readability"]
      else []
  let all_text := String.intercalate " " (bodiesOf ads_data)
  let recs := lengthRecs
    ++ (if pyIn "free" (pyLower all_text) then ["\x27Free\x27 is a popular keyword - consider incorporating free offers"] else [])
    ++ (if pyIn "new" (pyLower all_text) then ["\x27New\x27 products/features are trending - highlight novelty"] else [])
  recs.take 5

def _generate_visual_recommendations (ads_data : List AdRecord) : List String :=
  let media_types := mediaTypeCounter ads_data
  (if countOf media_types "IMAGE" < countOf media_types "VIDEO" then
    ["Video content is trending - prioritize video creation"]
  else
    ["Image content is popular - ensure high-quality visuals"])
  ++ ["Focus on eye-catching visuals that align with brand identity",
      "Consider A/B testing different visual styles"]

def _generate_format_recommendations (ads_data : List AdRecord) : List String :=
  let formats := mediaTypeCounter ads_data
  (if 0 < countOf formats "VIDEO" then ["Video ads are effective - create engaging video content"] else [])
  ++ (if 0 < countOf formats "IMAGE" then ["Image ads work well - focus on compelling visuals"] else [])
  ++ ["Test different ad formats to find what works best",
      "Consider carousel ads for showcasing multiple products"]

def _generate_messaging_recommendations (ads_data : List AdRecord) : List String :=
  let all_text := pyLower (String.intercalate " " (bodiesOf ads_data))
  (if pyIn "urgent" all_text || pyIn "limited" all_text then
    ["Urgency messaging is effective - create time-sensitive offers"] else [])
  ++ (if pyIn "free" all_text then ["Free offers are popular - consider free trials or samples"] else [])
  ++ ["Focus on clear value propositions",
      "Use emotional triggers that resonate with your audience",
      "Include strong call-to-action statements"]

structure Recommendations where
  content_recommendations : List String
  visual_recommendations : List String
  format_recommendations : List String
  messaging_recommendations : List String
deriving DecidableEq, Repr

def _generate_recommendations (ads_data : List AdRecord) : Recommendations :=
  { content_recommendations := _generate_content_recommendations ads_data,
    visual_recommendations := _generate_visual_recommendations ads_data,
    format_recommendations := _generate_format_recommendations ads_data,
    messaging_recommendations := _generate_messaging_recommendations ads_data }

/-- The parsed start dates of the ads, in order, silently skipping absent or
unparsable dates (the source's `try/except: continue`). -/
def parsedStartDates (ads_data : List AdRecord) : List PyDateTime :=
  ads_data.filterMap (fun ad =>
    match ad.start_date with
    | none => none
    | some sd => if sd = "" then none else parseStartDate sd)

/-- The dict `_analyze_date_patterns` returns: either the no-data marker or
the stats (totals, recency count, min/max `isoformat` strings). -/
inductive DatePatterns where
  | noData
  | stats (total_with_dates recent_ads_30_days : Nat) (earliest latest : String)
deriving DecidableEq, Repr

/-- `_analyze_date_patterns`.  The recency loop strips time zones before
comparing with `now`, but the final `min(dates)`/`max(dates)` runs on the raw
parsed dates: a mix of offset-aware and offset-naive dates raises `TypeError`
there, modelled by the `Except.error` branch. -/
def _analyze_date_patterns (now : PyDateTime) (ads_data : List AdRecord) :
    Except String DatePatterns := do
  let dates := parsedStartDates ads_data
  if dates.isEmpty then
    pure .noData
  else
    let recent := (dates.filter (fun d => decide (timedeltaDays now (stripTz d) ≤ 30))).length
    let earliest ← pyMinDates dates
    let latest ← pyMaxDates dates
    pure (.stats dates.length recent (pyIsoformat earliest) (pyIsoformat latest))

inductive AnalysisPeriod where
  | noInfo
  | period (earliest latest : String) (period_days : Int)
deriving DecidableEq, Repr

/-- `_get_analysis_period`: here every parsed date IS normalized to naive
before the `min`/`max` comparison, so this function never raises. -/
def _get_analysis_period (ads_data : List AdRecord) : AnalysisPeriod :=
  let dates := parsedStartDates ads_data
  match dates with
  | [] => .noInfo
  | d :: rest =>
    let naive := (d :: rest).map stripTz
    let first := naive.headD (stripTz d)
    let earliest := naive.foldl (fun best x => if wallSeconds x < wallSeconds best then x else best) first
    let latest := naive.foldl (fun best x => if wallSeconds best < wallSeconds x then x else best) first
    .period (pyIsoformat earliest) (pyIsoformat latest) (timedeltaDays latest earliest)

structure Overview where
  total_ads_analyzed : Nat
  media_type_distribution : List (String × Nat)
  date_patterns : DatePatterns
  top_brands : List (String × Nat)
  analysis_period : AnalysisPeriod
deriving DecidableEq, Repr

def brandsCounter (ads_data : List AdRecord) : List (String × Nat) :=
  counterOf (ads_data.map (fun ad => ad.page_name.getD "Unknown"))

def _analyze_overview_trends (now : PyDateTime) (ads_data : List AdRecord) :
    Except String Overview := do
  let date_patterns ← _analyze_date_patterns now ads_data
  pure
    { total_ads_analyzed := ads_data.length,
      media_type_distribution := mediaTypeCounter ads_data,
      date_patterns := date_patterns,
      top_brands := mostCommon (brandsCounter ads_data) 10,
      analysis_period := _get_analysis_period ads_data }

structure TextLengthStats where
  average_length : ℚ
  min_length : Nat
  max_length : Nat
  total_text_samples : Nat
deriving DecidableEq, Repr

structure ContentTrends where
  word_frequency : List (String × Nat)
  phrase_patterns : List (String × Nat)
  text_length_stats : TextLengthStats
  common_themes : List String
deriving DecidableEq, Repr

def _analyze_content_trends (ads_data : List AdRecord) : ContentTrends :=
  let all_text := bodiesOf ads_data
  let text_lengths := all_text.map String.length
  let avg : ℚ :=
    if text_lengths.isEmpty then 0
    else ((text_lengths.map (fun l => (l : ℚ))).sum) / (text_lengths.length : ℚ)
  { word_frequency := _analyze_word_frequency all_text,
    phrase_patterns := _analyze_phrase_patterns all_text,
    text_length_stats :=
      { average_length := pyRound avg 2,
        min_length := (text_lengths.foldr min (text_lengths.headD 0)),
        max_length := (text_lengths.foldr max 0),
        total_text_samples := text_lengths.length },
    common_themes := _extract_themes all_text }

def _extract_video_thumbnail (media_url : String) : String :=
  if media_url = "" then ""
  else if pyIn "video" (pyLower media_url)
      || pyEndsWith media_url ".mp4" || pyEndsWith media_url ".mov" || pyEndsWith media_url ".avi" then
    media_url
  else media_url

def _estimate_video_duration (_ad : AdRecord) : String := "15-30 seconds"

structure EngagementIndicators where
  has_call_to_action : Bool
  has_link_description : Bool
  has_captions : Bool
  multiple_languages : Bool
  multiple_platforms : Bool
  estimated_reach : Nat
deriving DecidableEq, Repr

def _extract_engagement_indicators (ad : AdRecord) : EngagementIndicators :=
  { has_call_to_action := !ad.ad_creative_link_titles.isEmpty,
    has_link_description := !ad.ad_creative_link_descriptions.isEmpty,
    has_captions := !ad.ad_creative_link_captions.isEmpty,
    multiple_languages := decide (1 < ad.languages.length),
    multiple_platforms := decide (1 < ad.publisher_platforms.length),
    estimated_reach := ad.estimated_audience_size_lower.getD 0 }

structure VideoDetail where
  id : String
  ad_id : String
  page_name : String
  media_url : String
  body : String
  start_date : String
  end_date : String
  ad_creative_bodies : List String
  ad_creative_link_captions : List String
  ad_creative_link_descriptions : List String
  ad_creative_link_titles : List String
  currency : String
  estimated_audience_size_lower : Option Nat
  estimated_audience_size_upper : Option Nat
  languages : List String
  publisher_platforms : List String
  region_distribution : List (String × Nat)
  video_thumbnail : String
  video_duration : String
  engagement_indicators : EngagementIndicators
deriving DecidableEq, Repr

def _extract_video_details (video_ads : List AdRecord) : List VideoDetail :=
  video_ads.map (fun ad =>
    { id := ad.id.getD "",
      ad_id := ad.id.getD "",
      page_name := ad.page_name.getD "Unknown",
      media_url := ad.media_url.getD "",
      body := ad.body.getD "",
      start_date := ad.start_date.getD "",
      end_date := ad.end_date.getD "",
      ad_creative_bodies := ad.ad_creative_bodies,
      ad_creative_link_captions := ad.ad_creative_link_captions,
      ad_creative_link_descriptions := ad.ad_creative_link_descriptions,
      ad_creative_link_titles := ad.ad_creative_link_titles,
      currency := ad.currency.getD "",
      estimated_audience_size_lower := ad.estimated_audience_size_lower,
      estimated_audience_size_upper := ad.estimated_audience_size_upper,
      languages := ad.languages,
      publisher_platforms := ad.publisher_platforms,
      region_distribution := ad.region_distribution,
      video_thumbnail := _extract_video_thumbnail (ad.media_url.getD ""),
      video_duration := _estimate_video_duration ad,
      engagement_indicators := _extract_engagement_indicators ad })

def _generate_key_findings (ads_data image_ads video_ads : List AdRecord) : List String :=
  let mediaFinding :=
    if image_ads.length < video_ads.length then
      ["Відео контент домінує (" ++ toString video_ads.length ++ " відео vs "
        ++ toString image_ads.length ++ " зображень) - це вказує на тренд до динамічного контенту"]
    else if video_ads.length < image_ads.length then
      ["Статичний контент популярніший (" ++ toString image_ads.length ++ " зображень vs "
        ++ toString video_ads.length ++ " відео) - можливо через простоту створення"]
    else []
  let all_text := bodiesOf ads_data
  let textFinding :=
    if all_text.isEmpty then []
    else
      let avg : ℚ := ((all_text.map (fun t => (t.length : ℚ))).sum) / (all_text.length : ℚ)
      if avg < 50 then ["Короткі повідомлення домінують - аудиторія віддає перевагу лаконічному контенту"]
      else if 150 < avg then ["Довгі описи популярні - аудиторія готова читати детальну інформацію"]
      else []
  let brands := brandsCounter ads_data
  let brandFinding :=
    match (mostCommon brands 1).head? with
    | none => []
    | some top => ["Найактивніший бренд: " ++ top.1 ++ " (" ++ toString top.2 ++ " оголошень)"]
  let all_text_combined := pyLower (String.intercalate " " all_text)
  let freeFinding :=
    if pyIn "free" all_text_combined then
      ["Ключове слово \x27безкоштовно\x27 часто використовується - безкоштовні пропозиції ефективні"]
    else []
  let newFinding :=
    if pyIn "new" all_text_combined then
      ["Акцент на новизні продуктів - інновації привабливі для аудиторії"]
    else []
  (mediaFinding ++ textFinding ++ brandFinding ++ freeFinding ++ newFinding).take 5

def _generate_trend_insights (ads_data : List AdRecord) : List String :=
  let recent_ads := ads_data.filter (fun ad => (ad.start_date.getD "") ≠ "")
  let activity :=
    if recent_ads.isEmpty then []
    else ["Активність: " ++ toString recent_ads.length ++ " оголошень з датами запуску"]
  let platforms := ads_data.foldl (fun acc ad => counterUpdate acc ad.publisher_platforms) []
  let platformInsight :=
    match (mostCommon platforms 1).head? with
    | none => []
    | some top => ["Найпопулярніша платформа: " ++ top.1 ++ " (" ++ toString top.2 ++ " оголошень)"]
  let languages := dedupFirst (ads_data.foldl (fun acc ad => acc ++ ad.languages) [])
  let langInsight :=
    if 1 < languages.length then
      ["Мультимовність: " ++ toString languages.length ++ " мов - глобальний підхід до маркетингу"]
    else []
  activity ++ platformInsight ++ langInsight

/-- `_calculate_market_concentration`: a simplified Herfindahl–Hirschman
index over the brand shares.  CPython computes it in binary floating point
with the literals `0.25` and `0.15`; the index and the thresholds are
modelled exactly over `ℚ` (`1/4` and `3/20`). -/
def totalBrandAds (brands : List (String × Nat)) : Nat := (brands.map Prod.snd).sum

/-- The Herfindahl-Hirschman-style index `sum((count/total)^2)`. -/
def hhiOf (brands : List (String × Nat)) : ℚ :=
  (brands.map (fun kv => ((kv.2 : ℚ) / (totalBrandAds brands : ℚ)) ^ 2)).sum

def _calculate_market_concentration (brands : List (String × Nat)) : String :=
  if totalBrandAds brands = 0 then "Unknown"
  else
    let hhi : ℚ := hhiOf brands
    if 1/4 < hhi then "High concentration (few dominant players)"
    else if 3/20 < hhi then "Medium concentration"
    else "Low concentration (fragmented market)"

structure CompetitiveAnalysis where
  total_competitors : Nat
  top_competitors : List (String × Nat)
  market_concentration : String
  competitive_intensity : String
deriving DecidableEq, Repr

def _generate_competitive_analysis (ads_data : List AdRecord) : CompetitiveAnalysis :=
  let brands := brandsCounter ads_data
  { total_competitors := brands.length,
    top_competitors := mostCommon brands 5,
    market_concentration := _calculate_market_concentration brands,
    competitive_intensity :=
      if 10 < brands.length then "High" else if 5 < brands.length then "Medium" else "Low" }

def _generate_recommendation_rationale (ads_data : List AdRecord) : List String :=
  let video_ads := ads_data.filter (fun ad => ad.media_type == some "VIDEO")
  let image_ads := ads_data.filter (fun ad => ad.media_type == some "IMAGE")
  let mediaRationale :=
    if image_ads.length < video_ads.length then
      ["Відео контент переважає серед конкурентів - рекомендуємо інвестувати в відео для конкурентоспроможності"]
    else
      ["Статичний контент популярний - можна досягти успіху з якісними зображеннями"]
  let all_text := bodiesOf ads_data
  let textRationale :=
    if all_text.isEmpty then []
    else
      let avg : ℚ := ((all_text.map (fun t => (t.length : ℚ))).sum) / (all_text.length : ℚ)
      if avg < 100 then ["Короткі повідомлення ефективні - аудиторія має обмежений час на читання"]
      else ["Детальні описи працюють - аудиторія цінує інформативність"]
  let all_text_combined := pyLower (String.intercalate " " all_text)
  let urgencyRationale :=
    if pyIn "urgent" all_text_combined || pyIn "limited" all_text_combined then
      ["Терміновість працює - створюйте обмежені за часом пропозиції"]
    else []
  mediaRationale ++ textRationale ++ urgencyRationale

structure DataBreakdown where
  total_ads : Nat
  video_ads : Nat
  image_ads : Nat
  video_percentage : ℚ
  image_percentage : ℚ
deriving DecidableEq, Repr

structure Reasoning where
  analysis_summary : String
  data_breakdown : DataBreakdown
  key_findings : List String
  trend_insights : List String
  competitive_analysis : CompetitiveAnalysis
  recommendation_rationale : List String
deriving DecidableEq, Repr

def _generate_reasoning (ads_data image_ads video_ads : List AdRecord) : Reasoning :=
  let total_ads := ads_data.length
  { analysis_summary := "Проаналізовано " ++ toString total_ads ++ " оголошень з Facebook Ads Library",
    data_breakdown :=
      { total_ads := total_ads,
        video_ads := video_ads.length,
        image_ads := image_ads.length,
        video_percentage :=
          if 0 < total_ads then pyRound ((video_ads.length : ℚ) / (total_ads : ℚ) * 100) 1 else 0,
        image_percentage :=
          if 0 < total_ads then pyRound ((image_ads.length : ℚ) / (total_ads : ℚ) * 100) 1 else 0 },
    key_findings := _generate_key_findings ads_data image_ads video_ads,
    trend_insights := _generate_trend_insights ads_data,
    competitive_analysis := _generate_competitive_analysis ads_data,
    recommendation_rationale := _generate_recommendation_rationale ads_data }

structure Trends where
  overview : Overview
  content_trends : ContentTrends
  visual_trends : Option VisualTrends
  video_trends : Option VideoTrends
  messaging_trends : MessagingTrends
  format_trends : FormatTrends
  recommendations : Recommendations
  analyzed_videos : List VideoDetail
  reasoning : Reasoning
deriving DecidableEq, Repr

structure AnalysisMetadata where
  total_ads : Nat
  image_ads : Nat
  video_ads : Nat
  analysis_type : String
  analyzed_at : String
deriving DecidableEq, Repr

/-- The uniform result envelope (`trends = none` is the empty `{}` of the
failure branches; `analysis_metadata` is only present on success). -/
structure TAEnvelope where
  success : Bool
  message : String
  trends : Option Trends
  analysis_metadata : Option AnalysisMetadata
  error : Option String
deriving DecidableEq, Repr

/-- `analyze_trends_from_ads`.  `now` stands for `datetime.now()` (naive).
The one exception the typed pipeline can raise — the aware/naive `TypeError`
of `_analyze_date_patterns` — is caught by the source's blanket
`except Exception` and becomes the failure envelope. -/
def analyze_trends_from_ads (now : PyDateTime) (ads_data : List AdRecord)
    (analysis_type : String) : TAEnvelope :=
  if ads_data.isEmpty then
    { success := false,
      message := "No ads data provided for analysis",
      trends := none,
      analysis_metadata := none,
      error := some "Empty ads data" }
  else
    let image_ads := ads_data.filter (fun ad => ad.media_type == some "IMAGE")
    let video_ads := ads_data.filter (fun ad => ad.media_type == some "VIDEO")
    let analyzed_videos := _extract_video_details video_ads
    match _analyze_overview_trends now ads_data with
    | .error e =>
      { success := false,
        message := "Failed to analyze trends: " ++ e,
        trends := none,
        analysis_metadata := none,
        error := some e }
    | .ok overview =>
      { success := true,
        message := "Successfully analyzed trends from " ++ toString ads_data.length ++ " ads",
        trends := some
          { overview := overview,
            content_trends := _analyze_content_trends ads_data,
            visual_trends := if image_ads.isEmpty then none else _analyze_visual_trends image_ads,
            video_trends := if video_ads.isEmpty then none else _analyze_video_trends video_ads,
            messaging_trends := _analyze_messaging_trends ads_data,
            format_trends := _analyze_format_trends ads_data,
            recommendations := _generate_recommendations ads_data,
            analyzed_videos := analyzed_videos,
            reasoning := _generate_reasoning ads_data image_ads video_ads },
        analysis_metadata := some
          { total_ads := ads_data.length,
            image_ads := image_ads.length,
            video_ads := video_ads.length,
            analysis_type := analysis_type,
            analyzed_at := pyIsoformat now },
        error := none }

end TrendAnalysisService

/-! ## Webpage Analyzer URL detection
(`src/services/webpage_analyzer_service.py`)

The regex is
`http[s]?://(?:[a-zA-Z]|[0-9]|[$-_@.&+]|[!*\\(\\),]|(?:%[0-9a-fA-F][0-9a-fA-F]))+`.
`[$-_@.&+]` is the byte range `$`..`_` (which already contains the digits,
the upper-case letters, `%`, and every char of `@.&+`), and `[!*\\(\\),]`
adds `!`, `*`, `\`, `(`, `)`, `,` (all but `!` and `\` already inside the
range); the `%XX` alternative matches characters the range already accepts,
so character by character the body of the `(...)+` accepts exactly the union
below.  `search` finds the leftmost position admitting a match and the
greedy `+` extends it maximally. -/

namespace WebpageAnalyzerService

/-- One character of the URL body character class. -/
def urlAllowedChar (c : Char) : Bool :=
  ('a' ≤ c && c ≤ 'z') || ('A' ≤ c && c ≤ 'Z') || ('0' ≤ c && c ≤ '9')
    || ('$' ≤ c && c ≤ '_')
    || c = '!' || c = '*' || c = '\\' || c = '(' || c = ')' || c = ',' || c = '%'

/-- The regex match attempt at one position: the scheme (the greedy `[s]?`
tries `https://` first; when the text starts with `https://`, the `http://`
branch cannot match at the same position, so no further backtracking exists)
followed by the longest non-empty run of allowed characters. -/
def matchUrlAt (cs : List Char) : Option (List Char) :=
  if "https://".data.isPrefixOf cs then
    let run := (cs.drop 8).takeWhile urlAllowedChar
    if run.isEmpty then none else some ("https://".data ++ run)
  else if "http://".data.isPrefixOf cs then
    let run := (cs.drop 7).takeWhile urlAllowedChar
    if run.isEmpty then none else some ("http://".data ++ run)
  else none

/-- `pattern.search`: the leftmost match. -/
def urlSearch : List Char → Option (List Char)
  | [] => none
  | c :: rest =>
    match matchUrlAt (c :: rest) with
    | some m => some m
    | none => urlSearch rest

/-- `is_valid_url(text)`: true when the text contains a match of the URL
pattern. -/
def is_valid_url (text : String) : Bool := (urlSearch text.data).isSome

/-- `extract_url_from_text(text)`: the first matched substring, or `None`. -/
def extract_url_from_text (text : String) : Option String :=
  (urlSearch text.data).map String.mk

/-- A token matched by the URL pattern: a scheme followed by a non-empty run
of allowed characters (the specification's reading of the pattern). -/
def IsUrlToken (l : List Char) : Prop :=
  ∃ scheme run, l = scheme ++ run
    ∧ (scheme = "http://".data ∨ scheme = "https://".data)
    ∧ run ≠ [] ∧ ∀ c ∈ run, urlAllowedChar c = true

/-- The text contains a substring matched by the URL pattern. -/
def ContainsUrl (s : String) : Prop :=
  ∃ pre tok suf, s.data = pre ++ tok ++ suf ∧ IsUrlToken tok

end WebpageAnalyzerService

/-! ## Script/Description Generation Engine
(`src/services/video_generator_service.py`)

The trend payload handed to `generate_video_description` is typed by the
Trend Analysis Engine's output shape (the gateway always passes that
engine's envelope); `nonempty` is the Python truthiness of the dict. -/

namespace VideoGeneratorService

def supported_generators : List String := ["veo", "runway", "pika", "stable_video", "sora"]

/-- The generator-type validation step of both entry points:
`if generator_type.lower() not in self.supported_generators:
generator_type = 'veo'`. -/
def resolveGenerator (generator_type : String) : String :=
  if supported_generators.contains (pyLower generator_type) then generator_type else "veo"

structure TrendsData where
  nonempty : Bool
  trends : Option TrendAnalysisService.Trends

structure CTInsights where
  common_words : List (String × Nat)
  common_phrases : List (String × Nat)
  themes : List String
  text_length_stats : Option TrendAnalysisService.TextLengthStats

structure VTInsights where
  image_count : Nat
  visual_style_indicators : Option TrendAnalysisService.VisualStyleIndicators

structure VidInsights where
  video_count : Nat
  video_format_indicators : Option TrendAnalysisService.VideoFormatIndicators

structure MTInsights where
  emotional_tone : List (String × Nat)
  cta_patterns : List (String × Nat)
  value_propositions : List (String × Nat)
  messaging_strategies : List String

structure FTInsights where
  format_distribution : List (String × Nat)
  format_preferences : Option TrendAnalysisService.FormatPreferences

structure TrendInsights where
  content_trends : CTInsights
  visual_trends : VTInsights
  video_trends : VidInsights
  messaging_trends : MTInsights
  format_trends : FTInsights
  recommendations : Option TrendAnalysisService.Recommendations

/-- `_extract_trend_insights`: flatten the nested trend payload with the
source's `.get(..., {})` defaults (`none` stands for each `{}`). -/
def _extract_trend_insights (trends_data : TrendsData) : TrendInsights :=
  match trends_data.trends with
  | none =>
    { content_trends := { common_words := [], common_phrases := [], themes := [], text_length_stats := none },
      visual_trends := { image_count := 0, visual_style_indicators := none },
      video_trends := { video_count := 0, video_format_indicators := none },
      messaging_trends := { emotional_tone := [], cta_patterns := [], value_propositions := [], messaging_strategies := [] },
      format_trends := { format_distribution := [], format_preferences := none },
      recommendations := none }
  | some t =>
    { content_trends :=
        { common_words := t.content_trends.word_frequency,
          common_phrases := t.content_trends.phrase_patterns,
          themes := t.content_trends.common_themes,
          text_length_stats := some t.content_trends.text_length_stats },
      visual_trends :=
        match t.visual_trends with
        | none => { image_count := 0, visual_style_indicators := none }
        | some v => { image_count := v.image_count, visual_style_indicators := some v.visual_style_indicators },
      video_trends :=
        match t.video_trends with
        | none => { video_count := 0, video_format_indicators := none }
        | some v => { video_count := v.video_count, video_format_indicators := some v.video_format_indicators },
      messaging_trends :=
        { emotional_tone := t.messaging_trends.emotional_tone,
          cta_patterns := t.messaging_trends.cta_patterns,
          value_propositions := t.messaging_trends.value_propositions,
          messaging_strategies := t.messaging_trends.messaging_strategies },
      format_trends :=
        { format_distribution := t.format_trends.format_distribution,
          format_preferences := some t.format_trends.format_preferences },
      recommendations := some t.recommendations }

structure QueryAnalysis where
  intent : String
  video_type : String
  target_audience : String
  emotional_tone : String
  content_focus : String
  urgency_level : String
  style_preferences : List String
  key_elements : List String
  call_to_action : String
  complexity : String

/-- One keyword of the list occurs in the lower-cased query. -/
def anyKw (query_lower : String) (kws : List String) : Bool :=
  kws.any (fun w => pyIn w query_lower)

/-- `_analyze_user_query`: fixed bilingual keyword rules. -/
def _analyze_user_query (user_query : String) : QueryAnalysis :=
  let ql := pyLower user_query
  let (intent, video_type) :=
    if anyKw ql ["реклама", "рекламне", "рекламний", "advertisement", "ad", "promo"] then
      ("advertising", "commercial")
    else if anyKw ql ["туторіал", "навчання", "як", "tutorial", "how to", "learn"] then
      ("educational", "tutorial")
    else if anyKw ql ["презентація", "демонстрація", "показати", "presentation", "demo", "show"] then
      ("demonstration", "product_demo")
    else if anyKw ql ["історія", "story", "narrative", "розповідь"] then
      ("storytelling", "narrative")
    else ("general", "promotional")
  let target_audience :=
    if anyKw ql ["молодь", "підлітки", "teen", "youth", "young"] then "youth"
    else if anyKw ql ["дорослі", "бізнес", "adult", "business", "professional"] then "adults"
    else if anyKw ql ["сім\x27я", "family", "parents"] then "families"
    else "general"
  let (emotional_tone, urgency_level) :=
    if anyKw ql ["веселий", "радісний", "fun", "happy", "joyful"] then ("joyful", "normal")
    else if anyKw ql ["серйозний", "серйозно", "serious", "professional"] then ("serious", "normal")
    else if anyKw ql ["надихаючий", "мотивуючий", "inspiring", "motivational"] then ("inspiring", "normal")
    else if anyKw ql ["терміново", "швидко", "urgent", "quick", "fast"] then ("urgent", "high")
    else ("positive", "normal")
  let content_focus :=
    if anyKw ql ["продукт", "товар", "product", "item"] then "product_showcase"
    else if anyKw ql ["послуга", "service", "сервіс"] then "service_demonstration"
    else if anyKw ql ["бренд", "компанія", "brand", "company"] then "brand_story"
    else if anyKw ql ["функції", "можливості", "features", "capabilities"] then "feature_highlight"
    else "product_showcase"
  let style_preferences :=
    if anyKw ql ["мінімалістичний", "простий", "minimalist", "simple", "clean"] then ["minimalist"]
    else if anyKw ql ["яскравий", "кольоровий", "bright", "colorful", "vibrant"] then ["colorful"]
    else if anyKw ql ["елегантний", "розкішний", "elegant", "luxury", "premium"] then ["elegant"]
    else if anyKw ql ["сучасний", "модний", "modern", "trendy", "contemporary"] then ["modern"]
    else []
  let key_elements :=
    (if anyKw ql ["анімація", "рух", "animation", "motion"] then ["animation"] else [])
    ++ (if anyKw ql ["текст", "надписи", "text", "typography"] then ["text_overlay"] else [])
    ++ (if anyKw ql ["музика", "звук", "music", "audio"] then ["audio"] else [])
    ++ (if anyKw ql ["переходи", "transitions", "effects"] then ["transitions"] else [])
  let call_to_action :=
    if anyKw ql ["купити", "замовити", "buy", "order", "purchase"] then "purchase"
    else if anyKw ql ["завантажити", "download", "install"] then "download"
    else if anyKw ql ["підписатися", "subscribe", "follow"] then "subscribe"
    else if anyKw ql ["дізнатися", "learn more", "find out"] then "learn_more"
    else "learn_more"
  let complexity :=
    if 20 < (pySplitWs user_query).length || anyKw ql ["складний", "детальний", "complex", "detailed"] then "high"
    else if (pySplitWs user_query).length < 5 then "low"
    else "medium"
  { intent := intent, video_type := video_type, target_audience := target_audience,
    emotional_tone := emotional_tone, content_focus := content_focus,
    urgency_level := urgency_level, style_preferences := style_preferences,
    key_elements := key_elements, call_to_action := call_to_action, complexity := complexity }

structure CompetitiveInsights where
  dominant_visual_style : String
  successful_messaging_patterns : List String
  trending_content_themes : List String
  effective_cta_patterns : List String
  emotional_triggers : List String
  visual_composition_trends : List String

def _extract_competitive_insights (trend_insights : TrendInsights) : CompetitiveInsights :=
  { dominant_visual_style :=
      if trend_insights.visual_trends.image_count < trend_insights.video_trends.video_count then
        "dynamic_video_focused"
      else "static_image_focused",
    successful_messaging_patterns := [],
    trending_content_themes := trend_insights.content_trends.themes.take 3,
    effective_cta_patterns := (trend_insights.messaging_trends.cta_patterns.map Prod.fst).take 3,
    emotional_triggers :=
      (trend_insights.messaging_trends.emotional_tone.filter (fun kv => decide (0 < kv.2))).map Prod.fst,
    visual_composition_trends := [] }

def _create_opening_hook (trend_insights : TrendInsights) (query_analysis : QueryAnalysis) : String :=
  let user_tone := query_analysis.emotional_tone
  let video_type := query_analysis.video_type
  let target_audience := query_analysis.target_audience
  let urgency_level := query_analysis.urgency_level
  let _ := trend_insights.messaging_trends.emotional_tone
  if video_type = "tutorial" then
    "Open with a clear, relatable problem that your target audience faces. Show the frustration or challenge in a way that immediately connects with "
      ++ target_audience ++ ", using authentic expressions and real-world scenarios."
  else if video_type = "commercial" then
    if urgency_level = "high" then
      "Start with a dramatic, time-sensitive moment that immediately captures attention. Show a problem or challenge that needs immediate resolution, with intense lighting and quick cuts to build urgency."
    else
      "Begin with an engaging moment that showcases the value proposition. Use compelling visuals that speak directly to "
        ++ target_audience ++ " needs and desires."
  else if video_type = "narrative" then
    "Open with a compelling character or situation that draws viewers into the story. Create emotional connection through authentic moments that resonate with "
      ++ target_audience ++ "."
  else if video_type = "product_demo" then
    "Start with a clear demonstration of the problem your product solves. Show the \x27before\x27 state in a way that "
      ++ target_audience ++ " can immediately relate to and understand."
  else if user_tone = "urgent" then
    "Open with a dramatic, time-sensitive moment that immediately captures attention. Show a problem or challenge that needs immediate resolution, with intense lighting and quick cuts."
  else if user_tone = "positive" then
    "Begin with an uplifting, inspiring moment that showcases transformation and possibility. Use warm, bright lighting and smooth camera movements to create an optimistic atmosphere."
  else if user_tone = "serious" then
    "Start with a professional, authoritative moment that establishes credibility and expertise. Use clean, focused lighting and steady camera work."
  else if user_tone = "inspiring" then
    "Open with a motivational moment that sparks ambition and possibility. Use dynamic lighting and inspiring visuals that energize the viewer."
  else if user_tone = "joyful" then
    "Begin with a fun, energetic moment that immediately brings a smile. Use bright colors, playful movements, and positive energy."
  else
    "Create an engaging opening that immediately draws viewers in and establishes the video\x27s purpose."

def _create_visual_story (_trend_insights : TrendInsights)
    (competitive_insights : CompetitiveInsights) (query_analysis : QueryAnalysis) : String :=
  let themes := competitive_insights.trending_content_themes
  let style_preferences := query_analysis.style_preferences
  let content_focus := query_analysis.content_focus
  let complexity := query_analysis.complexity
  let story_base :=
    if style_preferences.contains "minimalist" then
      "Create a clean, minimalist visual narrative with plenty of white space, simple compositions, and focused elements."
    else if style_preferences.contains "colorful" then
      "Develop a vibrant, colorful visual story with bold color palettes, dynamic contrasts, and energetic compositions."
    else if style_preferences.contains "elegant" then
      "Craft an elegant, sophisticated visual narrative with refined aesthetics, premium materials, and luxury elements."
    else if style_preferences.contains "modern" then
      "Create a contemporary, modern visual story with sleek designs, innovative layouts, and cutting-edge aesthetics."
    else
      "Develop a compelling visual narrative that effectively communicates your message."
  let story_base := story_base ++
    (if content_focus = "product_showcase" then
      " Focus on highlighting product features, benefits, and unique selling points through clear, detailed visuals."
    else if content_focus = "service_demonstration" then
      " Emphasize the service delivery process, customer experience, and value creation through step-by-step visual storytelling."
    else if content_focus = "brand_story" then
      " Tell the brand story through authentic moments, company values, and emotional connections."
    else if content_focus = "feature_highlight" then
      " Showcase specific features and capabilities through detailed demonstrations and clear explanations."
    else "")
  let story_base := story_base ++
    (if complexity = "high" then
      " Include multiple visual layers, complex compositions, and detailed elements that require careful attention."
    else if complexity = "low" then
      " Keep visuals simple, clear, and easy to understand with minimal distractions."
    else "")
  story_base ++
    (if themes.isEmpty then ""
     else " Incorporate trending themes like " ++ String.intercalate ", " (themes.take 2)
        ++ " to stay relevant and engaging.")

def _create_scene_descriptions (trend_insights : TrendInsights)
    (query_analysis : QueryAnalysis) : List String :=
  let video_type := query_analysis.video_type
  let target_audience := query_analysis.target_audience
  let emotional_tone := query_analysis.emotional_tone
  let key_elements := query_analysis.key_elements
  let typeScenes :=
    if video_type = "tutorial" then
      ["Scene 1: Establish the learning objective clearly. Show the current state or problem that needs to be solved, using relatable scenarios that "
        ++ target_audience ++ " can identify with.",
       "Scene 2: Demonstrate the step-by-step process. Use clear, detailed shots that show each action clearly, with helpful visual cues and explanations.",
       "Scene 3: Show the successful outcome and reinforce key learning points. Highlight the benefits and practical applications."]
    else if video_type = "commercial" then
      let strategies := trend_insights.messaging_trends.messaging_strategies
      let scene1 :=
        if strategies.contains "problem-solution" then
          ["Scene 1: Show a relatable problem or challenge that your product addresses. Use close-up shots of frustrated expressions, cluttered environments, or obstacles that create empathy and connection with "
            ++ target_audience ++ "."]
        else []
      let value_props := trend_insights.messaging_trends.value_propositions
      let dominant_value := if value_props.isEmpty then "quality" else maxByCountFirst value_props "quality"
      let scene2 :=
        if dominant_value = "price" then
          "Scene 2: Reveal your product as an affordable solution with money-saving visuals, price comparisons, and budget-friendly aesthetics that appeal to "
            ++ target_audience ++ "."
        else if dominant_value = "quality" then
          "Scene 2: Showcase your product with premium quality indicators, detailed craftsmanship, and high-end visual elements that demonstrate superior value."
        else if dominant_value = "convenience" then
          "Scene 2: Demonstrate your product\x27s ease of use with simple, effortless actions, streamlined processes, and user-friendly interfaces."
        else if dominant_value = "results" then
          "Scene 2: Highlight your product\x27s benefits with before/after comparisons, measurable outcomes, and clear value demonstration."
        else
          "Scene 2: Introduce your product as the solution with clear, compelling visual evidence that speaks to "
            ++ target_audience ++ "."
      let scene3 :=
        if emotional_tone = "positive" ∨ emotional_tone = "joyful" ∨ emotional_tone = "inspiring" then
          ["Scene 3: Show the positive transformation and outcomes of using your product. Use bright, uplifting visuals, satisfied expressions, and successful results that inspire "
            ++ target_audience ++ "."]
        else []
      scene1 ++ [scene2] ++ scene3
    else if video_type = "narrative" then
      ["Scene 1: Introduce the main character or situation. Create emotional connection through authentic moments that resonate with "
        ++ target_audience ++ ".",
       "Scene 2: Develop the story with conflict or challenge. Show character growth, obstacles overcome, or meaningful moments.",
       "Scene 3: Resolve the story with a satisfying conclusion. Show transformation, learning, or emotional payoff."]
    else if video_type = "product_demo" then
      ["Scene 1: Show the problem or need that your product addresses. Demonstrate the current pain points or limitations that "
        ++ target_audience ++ " experiences.",
       "Scene 2: Demonstrate your product in action. Show key features, functionality, and benefits through clear, detailed demonstrations.",
       "Scene 3: Highlight the results and benefits. Show the positive outcomes, improvements, and value that your product delivers."]
    else []
  typeScenes
    ++ (if key_elements.contains "animation" then
        ["Include smooth animations and dynamic motion throughout the scenes to enhance visual appeal and engagement."] else [])
    ++ (if key_elements.contains "text_overlay" then
        ["Incorporate clear, readable text overlays that reinforce key messages and provide additional context."] else [])
    ++ (if key_elements.contains "transitions" then
        ["Use creative transitions between scenes that maintain visual flow and enhance the storytelling."] else [])

def _create_technical_execution (_trend_insights : TrendInsights) (generator_type : String)
    (query_analysis : QueryAnalysis) : String :=
  let complexity := query_analysis.complexity
  let key_elements := query_analysis.key_elements
  let video_type := query_analysis.video_type
  let g := pyLower generator_type
  let base_spec :=
    if g = "veo" then
      "Execute with Veo\x27s cinematic capabilities: use smooth camera movements, realistic lighting, and natural motion. Focus on 16:9 aspect ratio with 1080p quality, 5-15 second duration. Emphasize photorealistic rendering and fluid transitions."
    else if g = "runway" then
      "Leverage Runway\x27s creative tools: use artistic style consistency, creative editing features, and expressive motion. Optimize for 16:9 or 9:16 formats with HD quality, 3-10 second duration. Focus on creative expression and artistic flair."
    else if g = "pika" then
      "Utilize Pika\x27s artistic capabilities: emphasize creative animations, visual appeal, and artistic style. Use square or 16:9 aspect ratios with 2-8 second duration. Focus on creative visual storytelling and artistic expression."
    else if g = "stable_video" then
      "Apply Stable Video\x27s generation: keep prompts clear and simple, ensure stable generation, maintain consistent style. Use 16:9 aspect ratio with 2-5 second duration. Focus on reliable, consistent output."
    else if g = "sora" then
      "Harness Sora\x27s advanced features: use detailed descriptions, focus on realism, leverage high-quality generation. Use 16:9 aspect ratio with 5-20 second duration. Emphasize photorealistic quality and complex scenes."
    else
      "Execute with standard video generation parameters and high-quality output."
  let base_spec := base_spec ++
    (if complexity = "high" then
      " Include detailed technical specifications, complex scene compositions, and sophisticated visual elements."
    else if complexity = "low" then
      " Keep technical requirements simple and straightforward for easy execution."
    else "")
  let base_spec := base_spec
    ++ (if key_elements.contains "animation" then
        " Prioritize smooth animations and dynamic motion throughout the video." else "")
    ++ (if key_elements.contains "text_overlay" then
        " Ensure clear, readable text overlays with proper contrast and positioning." else "")
    ++ (if key_elements.contains "transitions" then
        " Use creative transitions and effects to enhance visual flow." else "")
  base_spec ++
    (if video_type = "tutorial" then
      " Focus on clear, educational visuals with step-by-step clarity and instructional design."
    else if video_type = "commercial" then
      " Optimize for commercial appeal with attention-grabbing visuals and persuasive elements."
    else if video_type = "narrative" then
      " Emphasize storytelling elements with character development and emotional pacing."
    else "")

def _create_emotional_arc (trend_insights : TrendInsights) (query_analysis : QueryAnalysis) : String :=
  let emotional_tone := trend_insights.messaging_trends.emotional_tone
  let user_tone := query_analysis.emotional_tone
  let video_type := query_analysis.video_type
  let target_audience := query_analysis.target_audience
  let typeArc :=
    if video_type = "tutorial" then
      ["Start with curiosity and engagement, build confidence through learning, and end with empowerment and achievement"]
    else if video_type = "commercial" then
      if user_tone = "urgent" then
        ["Build tension and urgency in the first half, then provide relief and satisfaction"]
      else if user_tone = "inspiring" then
        ["Begin with aspiration, show transformation possibilities, and end with motivation and action"]
      else
        ["Start with relatability, build desire and interest, and conclude with satisfaction and action"]
    else if video_type = "narrative" then
      ["Establish emotional connection, develop conflict or challenge, and resolve with meaningful payoff"]
    else if video_type = "product_demo" then
      ["Begin with problem recognition, build understanding and interest, and end with confidence and desire"]
    else []
  let arc_parts := typeArc
    ++ (if 0 < TrendAnalysisService.countOf emotional_tone "urgent" then ["incorporate urgency and time-sensitivity"] else [])
    ++ (if 0 < TrendAnalysisService.countOf emotional_tone "positive" then ["maintain uplifting and optimistic tone"] else [])
    ++ (if 0 < TrendAnalysisService.countOf emotional_tone "exclusive" then ["convey premium, exclusive feeling"] else [])
    ++ (if 0 < TrendAnalysisService.countOf emotional_tone "social" then ["emphasize connection and community"] else [])
  if arc_parts.isEmpty then
    "Develop a compelling emotional journey that resonates with " ++ target_audience
      ++ " and creates meaningful connection."
  else
    "Create an emotional arc that " ++ String.intercalate ", " arc_parts
      ++ " to maximize engagement with " ++ target_audience ++ " and drive desired action."

def _create_cta_integration (trend_insights : TrendInsights) (query_analysis : QueryAnalysis) : String :=
  let cta_patterns := trend_insights.messaging_trends.cta_patterns
  let user_cta := query_analysis.call_to_action
  let target_audience := query_analysis.target_audience
  let urgency_level := query_analysis.urgency_level
  if user_cta = "purchase" then
    if urgency_level = "high" then
      "Integrate a compelling \x27Buy Now\x27 moment with urgency-inducing visuals, countdown elements, and clear purchase indicators that appeal to "
        ++ target_audience ++ "."
    else
      "Create an engaging \x27Shop Now\x27 sequence with product showcases, easy navigation visuals, and shopping-focused aesthetics that guide "
        ++ target_audience ++ " to purchase."
  else if user_cta = "download" then
    "Create a compelling \x27Download\x27 sequence with app store visuals, installation process, and digital convenience indicators that make it easy for "
      ++ target_audience ++ " to get started."
  else if user_cta = "subscribe" then
    "Develop an inviting \x27Subscribe\x27 moment with community benefits, exclusive content previews, and membership-focused aesthetics that appeal to "
      ++ target_audience ++ "."
  else if user_cta = "learn_more" then
    "Design an informative \x27Learn More\x27 section with educational visuals, detailed explanations, and knowledge-focused presentation that satisfies "
      ++ target_audience ++ "\x27s curiosity."
  else if !cta_patterns.isEmpty then
    let top_cta := maxByCountFirst cta_patterns ""
    if top_cta = "buy now" then
      "Integrate a compelling \x27Buy Now\x27 moment with urgency-inducing visuals, countdown elements, and clear purchase indicators that resonate with "
        ++ target_audience ++ "."
    else if top_cta = "shop now" then
      "Create an engaging \x27Shop Now\x27 sequence with product showcases, easy navigation visuals, and shopping-focused aesthetics that guide "
        ++ target_audience ++ "."
    else if top_cta = "learn more" then
      "Design an informative \x27Learn More\x27 section with educational visuals, detailed explanations, and knowledge-focused presentation for "
        ++ target_audience ++ "."
    else if top_cta = "sign up" then
      "Develop an inviting \x27Sign Up\x27 moment with registration visuals, community benefits, and membership-focused aesthetics that appeal to "
        ++ target_audience ++ "."
    else if top_cta = "download" then
      "Create a compelling \x27Download\x27 sequence with app store visuals, installation process, and digital convenience indicators for "
        ++ target_audience ++ "."
    else
      "Integrate a clear, compelling call-to-action that drives " ++ target_audience
        ++ " engagement and conversion."
  else
    "Include a strong, clear call-to-action that motivates " ++ target_audience
      ++ " to take the desired action."

/-- Caller-supplied style preferences (`style_preferences`); `none` models
both `None` and the empty, falsy dict, and an absent key is `none` in its
field. -/
structure StylePreferences where
  color_scheme : Option String := none
  mood : Option String := none
  style : Option String := none
  tone : Option String := none
  duration : Option String := none

/-- `_create_video_description`: six rule-based segments joined by spaces
(the `style_preferences` parameter exists in the source but is unused
there). -/
def _create_video_description (user_query : String) (trend_insights : TrendInsights)
    (generator_type : String) (_style_preferences : Option StylePreferences) : String :=
  let query_analysis := _analyze_user_query user_query
  let competitive_insights := _extract_competitive_insights trend_insights
  let description_parts :=
    [_create_opening_hook trend_insights query_analysis,
     _create_visual_story trend_insights competitive_insights query_analysis]
    ++ _create_scene_descriptions trend_insights query_analysis
    ++ [_create_technical_execution trend_insights generator_type query_analysis,
        _create_emotional_arc trend_insights query_analysis,
        _create_cta_integration trend_insights query_analysis]
  String.intercalate " " description_parts

def _create_emotional_variation (base_description : String) (trend_insights : TrendInsights) : String :=
  let emotional_tone := trend_insights.messaging_trends.emotional_tone
  let dominant_tone := if emotional_tone.isEmpty then "positive" else maxByCountFirst emotional_tone "positive"
  (if dominant_tone = "urgent" then
    "Create an emotionally charged video that builds tension and urgency. "
  else if dominant_tone = "positive" then
    "Develop an uplifting, inspiring narrative that creates emotional connection. "
  else if dominant_tone = "exclusive" then
    "Craft a sophisticated, premium experience that conveys exclusivity. "
  else if dominant_tone = "social" then
    "Build a relatable, community-focused story that emphasizes human connection. "
  else
    "Create an emotionally engaging video that resonates deeply with viewers. ")
  ++ base_description

def _create_technical_variation (base_description : String) (generator_type : String) : String :=
  let g := pyLower generator_type
  (if g = "veo" then "Optimize for Veo\x27s cinematic capabilities with photorealistic rendering. "
  else if g = "runway" then "Leverage Runway\x27s creative tools for artistic expression. "
  else if g = "pika" then "Utilize Pika\x27s artistic capabilities for creative storytelling. "
  else if g = "stable_video" then "Apply Stable Video\x27s reliable generation for consistent output. "
  else if g = "sora" then "Harness Sora\x27s advanced features for high-quality realism. "
  else "Focus on technical excellence and high-quality output. ")
  ++ base_description

def _create_competitive_variation (base_description : String) (trend_insights : TrendInsights) : String :=
  let themes := trend_insights.content_trends.themes
  (if themes.isEmpty then
    "Stand out from competitors with unique positioning and messaging. "
  else
    "Differentiate by emphasizing " ++ String.intercalate ", " (themes.take 2)
      ++ " themes that competitors are missing. ")
  ++ base_description

/-- `_create_unique_variations`: always the emotional, the technical and the
competitive variation, in that order. -/
def _create_unique_variations (base_description : String) (trend_insights : TrendInsights)
    (generator_type : String) : List String :=
  [_create_emotional_variation base_description trend_insights,
   _create_technical_variation base_description generator_type,
   _create_competitive_variation base_description trend_insights]

structure VGRecommendations where
  content_recommendations : List String
  visual_recommendations : List String
  technical_recommendations : List String
  optimization_recommendations : List String

def _generate_recommendations (_user_query : String) (trend_insights : TrendInsights)
    (generator_type : String) : VGRecommendations :=
  let common_words := trend_insights.content_trends.common_words
  let themes := trend_insights.content_trends.themes
  { content_recommendations :=
      (if common_words.isEmpty then []
       else ["Incorporate trending keywords: "
              ++ String.intercalate ", " ((common_words.map Prod.fst).take 3)])
      ++ (if themes.isEmpty then []
          else ["Focus on trending themes: " ++ String.intercalate ", " (themes.take 3)]),
    visual_recommendations :=
      (if trend_insights.visual_trends.image_count < trend_insights.video_trends.video_count then
        ["Prioritize video content over static images"] else [])
      ++ ["Ensure high visual quality and clear composition",
          "Use attention-grabbing visuals in the first 3 seconds"],
    technical_recommendations :=
      ["Optimize for " ++ pyUpper generator_type ++ " capabilities and limitations",
       "Test different aspect ratios for platform optimization",
       "Consider mobile-first design for social media"],
    optimization_recommendations :=
      ["A/B test different versions", "Monitor performance metrics",
       "Iterate based on engagement data"] }

structure TechnicalSpecs where
  generator_type : String
  recommended_aspect_ratio : String
  recommended_resolution : String
  recommended_duration : String
  optimization_tips : List String

def _generate_technical_specs (trend_insights : TrendInsights) (generator_type : String) :
    TechnicalSpecs :=
  let format_distribution := trend_insights.format_trends.format_distribution
  let trendTips :=
    if 0 < TrendAnalysisService.countOf format_distribution "VIDEO" then
      ["Video content is trending - prioritize motion and transitions"]
    else []
  let g := pyLower generator_type
  let generatorTips :=
    if g = "veo" then ["Use clear, descriptive prompts", "Focus on smooth motion", "Avoid complex scenes"]
    else if g = "runway" then ["Leverage creative editing features", "Use style consistency", "Optimize for artistic expression"]
    else if g = "pika" then ["Emphasize artistic style", "Use creative animations", "Focus on visual appeal"]
    else if g = "stable_video" then ["Keep prompts simple", "Ensure stable generation", "Use consistent style"]
    else if g = "sora" then ["Leverage advanced capabilities", "Use detailed descriptions", "Focus on realism"]
    else []
  { generator_type := generator_type,
    recommended_aspect_ratio := "16:9",
    recommended_resolution := "1080p",
    recommended_duration := "5-15 seconds",
    optimization_tips := trendTips ++ generatorTips }

structure VGSuccess where
  message : String
  video_description : String
  variations : List String
  recommendations : VGRecommendations
  technical_specifications : TechnicalSpecs
  trend_insights_used : TrendInsights
  generator_type : String

/-- The trend-driven entry point's result: `ok` is the success dictionary
(without the wall-clock `generated_at` timestamp), `err` the failure
envelope, whose `video_description` is the empty string. -/
inductive VGResult where
  | ok (r : VGSuccess)
  | err (message : String) (error : String)

/-- `generate_video_description` (trend-driven path). -/
def generate_video_description (user_query : String) (trends_data : TrendsData)
    (generator_type : String) (style_preferences : Option StylePreferences) : VGResult :=
  if user_query = "" || !trends_data.nonempty then
    .err "User query and trends data are required" "Missing required parameters"
  else
    let generator_type := resolveGenerator generator_type
    let trend_insights := _extract_trend_insights trends_data
    let video_description := _create_video_description user_query trend_insights generator_type style_preferences
    .ok
      { message := "Generated unique video descriptions for " ++ pyUpper generator_type,
        video_description := video_description,
        variations := _create_unique_variations video_description trend_insights generator_type,
        recommendations := _generate_recommendations user_query trend_insights generator_type,
        technical_specifications := _generate_technical_specs trend_insights generator_type,
        trend_insights_used := trend_insights,
        generator_type := generator_type }

/-- The `variations` list of a result, when it is a success. -/
def VGResult.variationsLen : VGResult → Option Nat
  | .ok r => some r.variations.length
  | .err _ _ => none

/-- The `technical_specifications` of a result, when it is a success. -/
def VGResult.techSpecs : VGResult → Option TechnicalSpecs
  | .ok r => some r.technical_specifications
  | .err _ _ => none

/-- The `insights` mapping of a Video Insight (the data model fixes it to a
dictionary whose `raw_analysis` holds the model's free text). -/
structure InsightsMap where
  raw_analysis : Option String := none

structure VideoMetadata where
  file_size_mb : Option ℚ := none
  duration_seconds : Option ℚ := none

/-- One Video Insight as both generation pipelines consume it. `video_metadata
= none` models a missing or empty (falsy) metadata dict. -/
structure VideoInsight where
  insights : Option InsightsMap := none
  video_metadata : Option VideoMetadata := none
  page_name : Option String := none

/-- `insight.get('insights', {}).get('raw_analysis', '')`. -/
def rawAnalysisOf (insight : VideoInsight) : String :=
  ((insight.insights.getD {}).raw_analysis).getD ""

def theme_keywords_from_text : List String :=
  ["product", "service", "quality", "price", "value", "benefit",
   "feature", "advantage", "solution", "problem", "need",
   "lifestyle", "emotion", "story", "testimonial", "review",
   "comparison", "competition", "unique", "special", "exclusive"]

def _extract_themes_from_text (text : String) : List String :=
  (theme_keywords_from_text.filter (fun kw => pyIn kw (pyLower text))).map pyTitle

def visual_keywords : List String :=
  ["color", "bright", "dark", "contrast", "animation", "motion",
   "close-up", "wide shot", "text overlay", "logo", "brand",
   "people", "faces", "hands", "product shot", "lifestyle",
   "background", "foreground", "lighting", "shadow"]

def _extract_visual_patterns (text : String) : List String :=
  (visual_keywords.filter (fun kw => pyIn kw (pyLower text))).map pyTitle

def messaging_keywords : List String :=
  ["call to action", "cta", "buy now", "learn more", "discover",
   "limited time", "offer", "discount", "sale", "free",
   "testimonial", "review", "rating", "star", "recommendation",
   "social proof", "trust", "credibility", "authority"]

def _extract_messaging_strategies (text : String) : List String :=
  (messaging_keywords.filter (fun kw => pyIn kw (pyLower text))).map pyTitle

structure TechInsight where
  duration : Option ℚ
  file_size : Option ℚ
  brand : String

structure CombinedInsights where
  total_videos : Nat
  common_themes : List String
  visual_patterns : List String
  messaging_strategies : List String
  technical_insights : List TechInsight
  brand_patterns : List (String × Nat)
  duration_insights : List String
  style_insights : List String
  common_duration : Option String := none
  common_aspect_ratio : Option String := none
  common_style : Option String := none

/-- `_extract_combined_insights`.  The three keyword lists are concatenated
per video and then de-duplicated and capped at 10 (`list(set(...))[:10]`;
Python's set order is hash-dependent, modelled here as first-occurrence
order — no claim below depends on the order).  The trailing
`common_duration` / `common_aspect_ratio` / `common_style` keys are never
produced by this extractor; they stay `none`. -/
def _extract_combined_insights (video_insights : List VideoInsight) : CombinedInsights :=
  let step := fun (acc : List String × List String × List String × List TechInsight × List (String × Nat))
      (insight : VideoInsight) =>
    let (themes, visuals, messaging, tech, brands) := acc
    let raw_analysis := rawAnalysisOf insight
    let (themes, visuals, messaging) :=
      if raw_analysis ≠ "" then
        (themes ++ _extract_themes_from_text raw_analysis,
         visuals ++ _extract_visual_patterns raw_analysis,
         messaging ++ _extract_messaging_strategies raw_analysis)
      else (themes, visuals, messaging)
    let tech :=
      match insight.video_metadata with
      | none => tech
      | some md => tech ++ [{ duration := md.duration_seconds, file_size := md.file_size_mb,
                              brand := insight.page_name.getD "Unknown" }]
    let brands := counterBump brands (insight.page_name.getD "Unknown")
    (themes, visuals, messaging, tech, brands)
  let st := video_insights.foldl step ([], [], [], [], [])
  { total_videos := video_insights.length,
    common_themes := (dedupFirst st.1).take 10,
    visual_patterns := (dedupFirst st.2.1).take 10,
    messaging_strategies := (dedupFirst st.2.2.1).take 10,
    technical_insights := st.2.2.2.1,
    brand_patterns := st.2.2.2.2,
    duration_insights := [],
    style_insights := [] }

/-- `_create_video_description_from_insights`: pipe-joined parts. -/
def _create_video_description_from_insights (user_query : String)
    (combined_insights : CombinedInsights) (generator_type : String)
    (style_preferences : Option StylePreferences) : String :=
  let description_parts :=
    ["Create a " ++ pyUpper generator_type ++ " video based on the user request: \x27" ++ user_query ++ "\x27"]
    ++ (if combined_insights.common_themes.isEmpty then []
        else ["Incorporate these key themes from successful ads: "
               ++ String.intercalate ", " (combined_insights.common_themes.take 5)])
    ++ (if combined_insights.visual_patterns.isEmpty then []
        else ["Use these visual elements: "
               ++ String.intercalate ", " (combined_insights.visual_patterns.take 5)])
    ++ (if combined_insights.messaging_strategies.isEmpty then []
        else ["Apply these messaging strategies: "
               ++ String.intercalate ", " (combined_insights.messaging_strategies.take 3)])
    ++ ["Optimize for " ++ pyUpper generator_type ++ " video generation",
        "Ensure high visual quality and engaging content"]
    ++ (match style_preferences with
        | none => []
        | some sp =>
          (if (sp.mood.getD "") ≠ "" then ["Maintain a " ++ sp.mood.getD "" ++ " mood throughout"] else [])
          ++ (if (sp.tone.getD "") ≠ "" then ["Use a " ++ sp.tone.getD "" ++ " tone"] else []))
  String.intercalate " | " description_parts

/-- `_create_video_variations`: always the emotional, the technical and the
competitive variation, in that order, each pipe-joined. -/
def _create_video_variations (user_query : String) (combined_insights : CombinedInsights)
    (generator_type : String) (_style_preferences : Option StylePreferences) : List String :=
  let emotional_parts :=
    ["Create an emotionally engaging " ++ pyUpper generator_type ++ " video for: \x27" ++ user_query ++ "\x27",
     "Focus on emotional connection and storytelling",
     "Use warm colors and intimate camera angles"]
    ++ (if combined_insights.common_themes.isEmpty then []
        else ["Emphasize themes: " ++ String.intercalate ", " (combined_insights.common_themes.take 3)])
  let technical_parts :=
    ["Create a technically impressive " ++ pyUpper generator_type ++ " video for: \x27" ++ user_query ++ "\x27",
     "Focus on product features and technical specifications",
     "Use clean, professional visuals and clear messaging"]
    ++ (if combined_insights.visual_patterns.isEmpty then []
        else ["Apply visual patterns: " ++ String.intercalate ", " (combined_insights.visual_patterns.take 3)])
  let competitive_parts :=
    ["Create a competitive " ++ pyUpper generator_type ++ " video for: \x27" ++ user_query ++ "\x27",
     "Highlight unique selling points and competitive advantages",
     "Use bold visuals and confident messaging"]
    ++ (if combined_insights.messaging_strategies.isEmpty then []
        else ["Apply strategies: " ++ String.intercalate ", " (combined_insights.messaging_strategies.take 3)])
  [String.intercalate " | " emotional_parts,
   String.intercalate " | " technical_parts,
   String.intercalate " | " competitive_parts]

def _create_recommendations_from_insights (combined_insights : CombinedInsights)
    (generator_type : String) : VGRecommendations :=
  { content_recommendations :=
      (if combined_insights.common_themes.isEmpty then []
       else ["Focus on these successful themes: "
              ++ String.intercalate ", " (combined_insights.common_themes.take 5)])
      ++ (if combined_insights.messaging_strategies.isEmpty then []
          else ["Use these messaging approaches: "
                 ++ String.intercalate ", " (combined_insights.messaging_strategies.take 3)]),
    visual_recommendations :=
      (if combined_insights.visual_patterns.isEmpty then []
       else ["Incorporate these visual elements: "
              ++ String.intercalate ", " (combined_insights.visual_patterns.take 5)]),
    technical_recommendations :=
      ["Optimize for " ++ pyUpper generator_type, "Ensure high production quality"],
    optimization_recommendations :=
      ["Test different variations", "Monitor engagement metrics"] }

/-- The insight path's technical-specification dictionary: the base table
plus the per-generator block (the `model`/`style`/`motion`/`lighting` keys
only exist when a known generator added them). -/
structure InsightTechSpecs where
  resolution : String
  aspect_ratio : String
  fps : Nat
  duration : String
  format : String
  quality : String
  model : Option String := none
  style : Option String := none
  motion : Option String := none
  lighting : Option String := none

/-- `_create_technical_specifications`. -/
def _create_technical_specifications (generator_type : String)
    (combined_insights : CombinedInsights) : InsightTechSpecs :=
  let base : InsightTechSpecs :=
    { resolution := "1080p", aspect_ratio := "16:9", fps := 30,
      duration := "30s", format := "mp4", quality := "high" }
  let g := pyLower generator_type
  let specs :=
    if g = "veo" then
      { base with model := some "veo-2", style := some "cinematic",
                  motion := some "smooth", lighting := some "natural" }
    else if g = "runway" then
      { base with model := some "gen-3", style := some "realistic",
                  motion := some "dynamic", lighting := some "dramatic" }
    else if g = "pika" then
      { base with model := some "pika-1.0", style := some "artistic",
                  motion := some "fluid", lighting := some "creative" }
    else if g = "stable_video" then
      { base with model := some "svd", style := some "stable",
                  motion := some "controlled", lighting := some "balanced" }
    else if g = "sora" then
      { base with model := some "sora-1.0", style := some "photorealistic",
                  motion := some "natural", lighting := some "realistic" }
    else base
  let specs :=
    match combined_insights.common_duration with
    | some d => { specs with duration := d }
    | none => specs
  let specs :=
    match combined_insights.common_aspect_ratio with
    | some a => { specs with aspect_ratio := a }
    | none => specs
  match combined_insights.common_style with
  | some s => { specs with style := some s }
  | none => specs

structure VGISuccess where
  message : String
  video_description : String
  variations : List String
  recommendations : VGRecommendations
  technical_specifications : InsightTechSpecs
  generator_type : String
  insights_analyzed : Nat

inductive VGIResult where
  | ok (r : VGISuccess)
  | err (message : String) (error : String)

/-- `generate_video_description_from_insights` (insight-driven path). -/
def generate_video_description_from_insights (user_query : String)
    (video_insights : List VideoInsight) (generator_type : String)
    (style_preferences : Option StylePreferences) : VGIResult :=
  if user_query = "" || video_insights.isEmpty then
    .err "User query and video insights are required" "Missing required parameters"
  else
    let generator_type := resolveGenerator generator_type
    let combined_insights := _extract_combined_insights video_insights
    .ok
      { message := "Successfully generated video description for " ++ pyUpper generator_type
          ++ " based on " ++ toString video_insights.length ++ " video insights",
        video_description :=
          _create_video_description_from_insights user_query combined_insights generator_type style_preferences,
        variations :=
          _create_video_variations user_query combined_insights generator_type style_preferences,
        recommendations := _create_recommendations_from_insights combined_insights generator_type,
        technical_specifications := _create_technical_specifications generator_type combined_insights,
        generator_type := pyLower generator_type,
        insights_analyzed := video_insights.length }

/-- The `variations` list of an insight-path result, when it is a success. -/
def VGIResult.variationsLen : VGIResult → Option Nat
  | .ok r => some r.variations.length
  | .err _ _ => none

end VideoGeneratorService

/-! ## Competitor-Insight Script Compiler (`api_server.py`,
`generate_video_prompt_from_insights`)

The sequential `prompt += segment` accumulation is modelled as `concatAll`
over the list of segments in source order; a conditional `+=` with no `else`
contributes the empty string when its condition is false. -/

namespace ApiServer

open VideoGeneratorService (VideoInsight rawAnalysisOf)

structure WebpageData where
  title : Option String := none

structure WebpageAnalysis where
  success : Bool
  analysis : String := ""
  webpage_data : WebpageData := {}

/-- Extraction of one labelled section of the webpage brief: the text
between the first occurrence of the header and the next blank line,
stripped (`analysis_text.split(header)[1].split('\n\n')[0].strip()`),
empty when the header does not occur. -/
def sectionAfter (analysis_text hdr : String) : String :=
  if pyIn hdr analysis_text then
    pyStrip (((pySplitOn (((pySplitOn analysis_text hdr).get? 1).getD "") "\n\n").headD ""))
  else ""

/-- `line.strip().replace('*', '').strip('- ')`. -/
def cleanShotLine (line : String) : String :=
  pyStripSet (pyReplaceChar (pyStrip line) '*' "") ['-', ' ']

/-- The `(brand, analysis)` pairs of the insights whose raw analysis text is
non-empty. -/
def competitorInsightsOf (insights : List VideoInsight) : List (String × String) :=
  insights.filterMap (fun insight =>
    let raw := rawAnalysisOf insight
    if raw ≠ "" then some (insight.page_name.getD "Unknown", raw) else none)

/-- Opening-technique lines harvested from the competitor analyses. -/
def openingShotsOf (comps : List (String × String)) : List String :=
  comps.foldl (fun acc comp =>
    if pyIn "opening" (pyLower comp.2) || pyIn "start" (pyLower comp.2) then
      acc ++ ((pySplitOn comp.2 "\n").filterMap (fun line =>
        if (pyIn "opening" (pyLower line) || pyIn "start" (pyLower line))
            && decide (30 < (pyStrip line).length) then
          some (cleanShotLine line)
        else none))
    else acc) []

/-- Visual-technique strings appended per competitor text. -/
def visualTechniquesOf (comps : List (String × String)) : List String :=
  comps.foldl (fun acc comp =>
    let lower := pyLower comp.2
    acc
    ++ (if pyIn "split screen" lower || pyIn "split-screen" lower then ["split-screen composition"] else [])
    ++ (if pyIn "close-up" lower || pyIn "close up" lower then ["close-up product shots"] else [])
    ++ (if pyIn "before/after" lower || pyIn "before and after" lower then ["before/after comparison"] else [])) []

def eq80 : String := pyRepeat '=' 80

def heavyRule : String := pyRepeat '━' 78 ++ "\n"

/-- The script segments of `generate_video_prompt_from_insights`, in source
order.  Note that the source tests `'split-screen' in visual_techniques`
(and `'close-up'`, `'before/after'`) — Python list membership against a list
whose elements are the longer strings appended above, so those element
checks are transcribed as written.  `set(visual_techniques[:3])` iterates in
a hash-dependent order, modelled as first-occurrence order. -/
def scriptSegments (insights : List VideoInsight) (user_query generator_type : String)
    (webpage_analysis : Option WebpageAnalysis) : List String :=
  let waOk := match webpage_analysis with
    | some wa => wa.success
    | none => false
  let analysis_text := match webpage_analysis with
    | some wa => wa.analysis
    | none => ""
  let product_name := match webpage_analysis with
    | some wa =>
      if wa.success && (wa.webpage_data.title.getD "") ≠ "" then wa.webpage_data.title.getD ""
      else "your product"
    | none => "your product"
  let product_description := if waOk then sectionAfter analysis_text "PRODUCT/SERVICE OVERVIEW" else ""
  let target_audience_info := if waOk then sectionAfter analysis_text "TARGET AUDIENCE" else ""
  let brand_tone := if waOk then sectionAfter analysis_text "BRAND IDENTITY" else ""
  let cta_info := if waOk then sectionAfter analysis_text "CALL-TO-ACTION" else ""
  let all_competitor_insights := competitorInsightsOf insights
  let opening_shots := openingShotsOf all_competitor_insights
  let visual_techniques := visualTechniquesOf all_competitor_insights
  ["CREATE A " ++ pyUpper generator_type ++ " VIDEO SCRIPT\n\n",
   eq80 ++ "\n",
   "WHAT WE\x27RE ADVERTISING:\n",
   eq80 ++ "\n\n",
   (if waOk then "Product/Service: " ++ product_name ++ "\n\n"
    else "Product/Service: " ++ user_query ++ "\n\n"),
   (if waOk && product_description ≠ "" then product_description ++ "\n\n" else ""),
   (if waOk && target_audience_info ≠ "" then "Target Audience:\n" ++ target_audience_info ++ "\n\n" else ""),
   (if waOk && brand_tone ≠ "" then "Brand Identity:\n" ++ brand_tone ++ "\n\n" else ""),
   eq80 ++ "\n",
   "STEP-BY-STEP VIDEO SCRIPT:\n",
   eq80 ++ "\n\n",
   "SCENE 1: OPENING (0-3 seconds)\n",
   heavyRule,
   (if product_name ≠ "" && product_name ≠ "your product" then
     "Visual: Show " ++ product_name ++ " prominently"
    else "Visual: Show the product prominently"),
   (match opening_shots.head? with
    | some s => " using technique: " ++ pyTake s 150 ++ "\n"
    | none => " with clean, professional composition\n"),
   (if visual_techniques.contains "split-screen" then
     "Composition: Split-screen - product on one side, benefit/result on other\n"
    else "Composition: Center-framed, immediate visual impact\n"),
   "\n",
   "SCENE 2: PROBLEM/HOOK (3-5 seconds)\n",
   heavyRule,
   (if target_audience_info ≠ "" then
     "Visual: Show scenario that resonates with target audience: " ++ pyTake target_audience_info 200 ++ "\n"
    else "Visual: Show relatable problem scenario\n"),
   "Text Overlay: Problem statement or attention-grabbing question\n",
   "\n",
   "SCENE 3: SOLUTION/PRODUCT SHOWCASE (5-15 seconds)\n",
   heavyRule,
   (if product_description ≠ "" then
     "Visual: Demonstrate " ++ product_name ++ " in action\n"
       ++ "Show: " ++ pyTake product_description 300 ++ "\n"
    else "Visual: Demonstrate product solving the problem\n"),
   (if visual_techniques.contains "close-up" then
     "Include: Close-up shots of key features and UI/interface\n" else ""),
   (if visual_techniques.contains "before/after" then
     "Show: Before/after comparison demonstrating transformation\n" else ""),
   "Pacing: Quick cuts every 2-3 seconds to maintain attention\n",
   "\n",
   "SCENE 4: BENEFITS & SOCIAL PROOF (15-20 seconds)\n",
   heavyRule,
   "Visual: Show " ++ product_name ++ " delivering results\n",
   "Text Overlays: Key benefits, statistics, or user testimonials\n",
   (if brand_tone ≠ "" then "Tone: " ++ pyTake brand_tone 200 ++ "\n" else ""),
   "\n",
   "SCENE 5: CALL-TO-ACTION (20-25 seconds)\n",
   heavyRule,
   (if cta_info ≠ "" then "Action: " ++ pyTake cta_info 200 ++ "\n"
    else "Action: Clear call-to-action (\"Get Started\", \"Download Now\", etc.)\n"),
   "Visual: Product logo/branding with CTA button overlay\n",
   "Urgency: Add time-limited offer or special incentive if applicable\n",
   "\n",
   eq80 ++ "\n",
   "TECHNICAL SPECIFICATIONS:\n",
   eq80 ++ "\n\n",
   "Based on competitor analysis:\n"]
  ++ ((all_competitor_insights.take 3).enum.map (fun p =>
       "\nCompetitor " ++ toString (p.1 + 1) ++ " (" ++ p.2.1 ++ "):\n"
         ++ "  Applied techniques: " ++ pyStrip (pyTake p.2.2 300) ++ "...\n"))
  ++ ["\n" ++ eq80 ++ "\n",
      "FINAL VIDEO CONCEPT:\n",
      eq80 ++ "\n\n",
      (if product_name ≠ "" && product_name ≠ "your product" then
        "Create a " ++ pyUpper generator_type ++ " video advertising " ++ product_name ++ " that:\n\n"
       else "Create a " ++ pyUpper generator_type ++ " video that:\n\n"),
      "1. Opens with immediate visual impact showing "
        ++ (if product_name ≠ "your product" then product_name else "the product") ++ "\n",
      "2. Demonstrates the product solving a real problem\n",
      "3. Uses proven techniques from successful competitor videos:\n"]
  ++ ((dedupFirst (visual_techniques.take 3)).map (fun tech => "   - " ++ tech ++ "\n"))
  ++ ["4. Ends with a strong, clear call-to-action\n",
      "5. Duration: 20-30 seconds, fast-paced (2-3 second scene changes)\n",
      (if waOk then
        "\n✓ This script is specifically tailored for YOUR product: " ++ product_name ++ "\n"
          ++ "✓ Incorporates proven strategies from " ++ toString all_competitor_insights.length
          ++ " competitor videos\n"
       else "")]

/-- `generate_video_prompt_from_insights`: the emitted script (the typed
embedding raises no exception, so the source's one-line fallback script is
unreachable). -/
def generate_video_prompt_from_insights (insights : List VideoInsight)
    (user_query generator_type : String)
    (webpage_analysis : Option WebpageAnalysis) : String :=
  concatAll (scriptSegments insights user_query generator_type webpage_analysis)

/-- The five literal scene headers with their literal time ranges. -/
def sceneHeaders : List String :=
  ["SCENE 1: OPENING (0-3 seconds)\n",
   "SCENE 2: PROBLEM/HOOK (3-5 seconds)\n",
   "SCENE 3: SOLUTION/PRODUCT SHOWCASE (5-15 seconds)\n",
   "SCENE 4: BENEFITS & SOCIAL PROOF (15-20 seconds)\n",
   "SCENE 5: CALL-TO-ACTION (20-25 seconds)\n"]

end ApiServer

/-! ## Concrete inputs used by the closed theorems below -/

/-- A naive "now" for the date computations (`datetime.now()` is naive). -/
def exNow : PyDateTime :=
  { year := 2024, month := 6, day := 1, hour := 0, minute := 0, second := 0, tz := none }

/-- A video ad whose start date is `Z`-suffixed (parses offset-aware). -/
def exAdVideoZ : TrendAnalysisService.AdRecord :=
  { media_type := some "VIDEO", start_date := some "2024-01-01T00:00:00Z",
    page_name := some "BrandA" }

/-- An image ad whose start date is bare ISO-8601 (parses offset-naive). -/
def exAdImageNaive : TrendAnalysisService.AdRecord :=
  { media_type := some "IMAGE", start_date := some "2024-01-05T00:00:00",
    page_name := some "BrandB" }

/-- The failing input of the date-handling bug: one aware and one naive
start date. -/
def exAdsMixedTz : List TrendAnalysisService.AdRecord := [exAdVideoZ, exAdImageNaive]

/-- Ten brands with one ad each (Herfindahl index `1/10`). -/
def exTenBrands : List (String × Nat) :=
  [("b1", 1), ("b2", 1), ("b3", 1), ("b4", 1), ("b5", 1),
   ("b6", 1), ("b7", 1), ("b8", 1), ("b9", 1), ("b10", 1)]

/-- One brand with all 10 ads (Herfindahl index `1`). -/
def exOneBrand : List (String × Nat) := [("brand", 10)]

/-- A truthy (non-empty) trend payload with no `trends` key content. -/
def exTrendsData : VideoGeneratorService.TrendsData := { nonempty := true, trends := none }

/-- One video insight with a raw analysis text. -/
def exInsight : VideoGeneratorService.VideoInsight :=
  { insights := some { raw_analysis := some "Strong opening with close-up product shots and a clear call to action." },
    page_name := some "BrandA" }

/-! ## Helper lemmas -/

theorem containsList_infix_iff (n : List Char) :
    ∀ h : List Char, containsList n h = true ↔ n <:+: h := by
  intro h
  induction h with
  | nil =>
    simp [containsList, List.isEmpty_iff, List.infix_nil]
  | cons c rest ih =>
    simp only [containsList, Bool.or_eq_true, List.isPrefixOf_iff_prefix, ih,
      List.infix_cons_iff]

theorem pyIn_infix_iff (n h : String) : pyIn n h = true ↔ n.data <:+: h.data := by
  simp [pyIn, containsList_infix_iff]

theorem infix_concatAll_of_mem {x : String} {l : List String} (hx : x ∈ l) :
    x.data <:+: (concatAll l).data := by
  induction l with
  | nil => cases hx
  | cons s rest ih =>
    rcases List.mem_cons.mp hx with h | h
    · subst h
      show x.data <:+: (x ++ concatAll rest).data
      rw [String.data_append]
      exact (List.prefix_append x.data (concatAll rest).data).isInfix
    · have := ih h
      show x.data <:+: (s ++ concatAll rest).data
      rw [String.data_append]
      rcases this with ⟨u, v, huv⟩
      exact ⟨s.data ++ u, v, by rw [← huv]; simp⟩

theorem pyIn_concatAll_of_mem {x : String} {l : List String} (hx : x ∈ l) :
    pyIn x (concatAll l) = true :=
  (pyIn_infix_iff x (concatAll l)).mpr (infix_concatAll_of_mem hx)

theorem mem_counterBump [DecidableEq α] {p : α × Nat} {c : List (α × Nat)} {k : α}
    (hp : p ∈ counterBump c k) : p.1 ∈ c.map Prod.fst ∨ p.1 = k := by
  unfold counterBump at hp
  by_cases hc : c.any (fun kv => kv.1 = k)
  · rw [if_pos hc] at hp
    rcases List.mem_map.mp hp with ⟨q, hq, hpq⟩
    by_cases hqk : q.1 = k
    · rw [if_pos hqk] at hpq
      right; rw [← hpq]; exact hqk
    · rw [if_neg hqk] at hpq
      left; exact List.mem_map.mpr ⟨q, hq, by rw [← hpq]⟩
  · rw [if_neg hc] at hp
    rcases List.mem_append.mp hp with h | h
    · left; exact List.mem_map.mpr ⟨p, h, rfl⟩
    · right; simp only [List.mem_singleton] at h; rw [h]

theorem mem_counterUpdate [DecidableEq α] {p : α × Nat} {ks : List α} :
    ∀ {c : List (α × Nat)}, p ∈ counterUpdate c ks → p.1 ∈ c.map Prod.fst ∨ p.1 ∈ ks := by
  induction ks with
  | nil => intro c hp; left; exact List.mem_map.mpr ⟨p, hp, rfl⟩
  | cons k rest ih =>
    intro c hp
    have hp' : p ∈ counterUpdate (counterBump c k) rest := hp
    rcases ih hp' with h | h
    · rcases List.mem_map.mp h with ⟨q, hq, hq1⟩
      rcases mem_counterBump hq with h' | h'
      · left; rw [← hq1]; exact h'
      · right; exact List.mem_cons.mpr (Or.inl (hq1 ▸ h'))
    · right; exact List.mem_cons.mpr (Or.inr h)

theorem mem_insertByCountDesc {y x : α × Nat} :
    ∀ {l : List (α × Nat)}, y ∈ insertByCountDesc x l ↔ y = x ∨ y ∈ l := by
  intro l
  induction l with
  | nil => simp [insertByCountDesc]
  | cons z zs ih =>
    unfold insertByCountDesc
    by_cases h : x.2 ≤ z.2
    · rw [if_pos h]
      simp only [List.mem_cons, ih]
      tauto
    · rw [if_neg h]
      simp only [List.mem_cons]

theorem mem_sortByCountDesc {y : α × Nat} {l : List (α × Nat)}
    (hy : y ∈ sortByCountDesc l) : y ∈ l := by
  have aux : ∀ (l : List (α × Nat)) (acc : List (α × Nat)),
      y ∈ l.foldl (fun acc x => insertByCountDesc x acc) acc → y ∈ acc ∨ y ∈ l := by
    intro l
    induction l with
    | nil => intro acc h; exact Or.inl h
    | cons z zs ih =>
      intro acc h
      rcases ih _ h with h' | h'
      · rcases mem_insertByCountDesc.mp h' with h'' | h''
        · right; exact List.mem_cons.mpr (Or.inl h'')
        · left; exact h''
      · right; exact List.mem_cons.mpr (Or.inr h')
  rcases aux l [] hy with h | h
  · cases h
  · exact h

theorem mem_mostCommon {p : α × Nat} {c : List (α × Nat)} {n : Nat}
    (hp : p ∈ mostCommon c n) : p ∈ c :=
  mem_sortByCountDesc (List.mem_of_mem_take hp)

theorem length_mostCommon_le (c : List (α × Nat)) (n : Nat) :
    (mostCommon c n).length ≤ n :=
  (sortByCountDesc c).length_take_le n

theorem sorted_insertByCountDesc {x : α × Nat} :
    ∀ {l : List (α × Nat)}, List.Sorted (fun a b => b.2 ≤ a.2) l →
      List.Sorted (fun a b => b.2 ≤ a.2) (insertByCountDesc x l) := by
  intro l
  induction l with
  | nil => intro _; simp [insertByCountDesc]
  | cons y ys ih =>
    intro hs
    unfold insertByCountDesc
    by_cases h : x.2 ≤ y.2
    · rw [if_pos h]
      rcases List.sorted_cons.mp hs with ⟨hy, hys⟩
      refine List.sorted_cons.mpr ⟨?_, ih hys⟩
      intro z hz
      rcases mem_insertByCountDesc.mp hz with rfl | hz'
      · exact h
      · exact hy z hz'
    · rw [if_neg h]
      refine List.sorted_cons.mpr ⟨?_, hs⟩
      intro z hz
      rcases List.mem_cons.mp hz with rfl | hz'
      · exact le_of_lt (lt_of_not_le h)
      · rcases List.sorted_cons.mp hs with ⟨hy, -⟩
        exact le_trans (hy z hz') (le_of_lt (lt_of_not_le h))

theorem sorted_sortByCountDesc (l : List (α × Nat)) :
    List.Sorted (fun a b => b.2 ≤ a.2) (sortByCountDesc l) := by
  have aux : ∀ (l acc : List (α × Nat)), List.Sorted (fun a b => b.2 ≤ a.2) acc →
      List.Sorted (fun a b => b.2 ≤ a.2)
        (l.foldl (fun acc x => insertByCountDesc x acc) acc) := by
    intro l
    induction l with
    | nil => intro acc h; exact h
    | cons x xs ih => intro acc h; exact ih _ (sorted_insertByCountDesc h)
  exact aux l [] (by simp)

theorem sorted_mostCommon (c : List (α × Nat)) (n : Nat) :
    List.Sorted (fun a b => b.2 ≤ a.2) (mostCommon c n) :=
  List.Pairwise.sublist (List.take_sublist n _) (sorted_sortByCountDesc c)

/-! ## Claim theorems -/

/-- C4: for the empty `ads_data` list and every `analysis_type` value (and
every clock reading), `analyze_trends_from_ads` returns the failure envelope
with `success = false` and an empty `trends` object, before any analysis
work. -/
theorem trend_analysis_empty_ads_failure (now : PyDateTime) (analysis_type : String) :
    TrendAnalysisService.analyze_trends_from_ads now [] analysis_type =
      { success := false,
        message := "No ads data provided for analysis",
        trends := none,
        analysis_metadata := none,
        error := some "Empty ads data" } := rfl

/-- C5: the word-frequency result has at most 20 entries, and every returned
word is outside the fixed stop-word list and longer than 3 characters, for
every input corpus. -/
theorem word_frequency_stop_free (texts : List String) :
    (TrendAnalysisService._analyze_word_frequency texts).length ≤ 20 ∧
    ∀ p ∈ TrendAnalysisService._analyze_word_frequency texts,
      p.1 ∉ TrendAnalysisService.stop_words ∧ 3 < p.1.length := by
  constructor
  · exact length_mostCommon_le _ 20
  · intro p hp
    simp only [TrendAnalysisService._analyze_word_frequency] at hp
    have hf := mem_mostCommon hp
    have hfp := (List.mem_filter.mp hf).2
    simp only [Bool.and_eq_true, Bool.not_eq_true', decide_eq_true_eq] at hfp
    refine ⟨fun hmem => ?_, hfp.2⟩
    have : TrendAnalysisService.stop_words.contains p.1 = true := by
      simpa using hmem
    rw [this] at hfp
    exact absurd hfp.1 (by simp)

/-- C3 (counterexample): phrase-pattern extraction does NOT use the
word-frequency tokenization.  On the corpus `["ai is ai is ai"]` the
returned top phrase `"ai is"` contains the two-letter words `ai` and `is`
(the phrase regex `\b[a-zA-Z]+\b` accepts runs of length 1, the
word-frequency regex requires length 3). -/
theorem phrase_patterns_short_word_counterexample :
    ("ai is", 2) ∈ TrendAnalysisService._analyze_phrase_patterns ["ai is ai is ai"] ∧
    pySplitOn "ai is" " " = ["ai", "is"] ∧ "ai".length < 3 ∧
    TrendAnalysisService.reFindAllWords 3 (pyLower "ai is ai is ai") = [] := by
  refine ⟨by decide, by decide, by decide, by decide⟩

/-- C3 (amended): phrase-pattern extraction tokenizes the lower-cased text
into alphabetic runs of length at least 1 (not the ≥ 3 runs of
word-frequency extraction) and returns at most the top 15 adjacent two-word
phrases by count; every returned phrase is an adjacent token pair of some
input text. -/
theorem phrase_patterns_amended (texts : List String) :
    (TrendAnalysisService._analyze_phrase_patterns texts).length ≤ 15 ∧
    List.Sorted (fun a b => b.2 ≤ a.2) (TrendAnalysisService._analyze_phrase_patterns texts) ∧
    ∀ p ∈ TrendAnalysisService._analyze_phrase_patterns texts,
      ∃ t ∈ texts,
        p.1 ∈ TrendAnalysisService.adjacentPairs
          (TrendAnalysisService.reFindAllWords 1 (pyLower t)) := by
  refine ⟨length_mostCommon_le _ 15, sorted_mostCommon _ 15, ?_⟩
  · intro p hp
    simp only [TrendAnalysisService._analyze_phrase_patterns] at hp
    have h := mem_mostCommon hp
    have aux : ∀ (ts : List String) (c : List (String × Nat)),
        p ∈ ts.foldl (fun c t => counterUpdate c
          (TrendAnalysisService.adjacentPairs (TrendAnalysisService.reFindAllWords 1 (pyLower t)))) c →
        p.1 ∈ c.map Prod.fst ∨ ∃ t ∈ ts,
          p.1 ∈ TrendAnalysisService.adjacentPairs (TrendAnalysisService.reFindAllWords 1 (pyLower t)) := by
      intro ts
      induction ts with
      | nil => intro c h; left; exact List.mem_map.mpr ⟨p, h, rfl⟩
      | cons t ts ih =>
        intro c h
        rcases ih _ h with h' | h'
        · rcases List.mem_map.mp h' with ⟨q, hq, hq1⟩
          rcases mem_counterUpdate hq with h'' | h''
          · left; rw [← hq1]; exact h''
          · right; exact ⟨t, List.mem_cons_self t ts, hq1 ▸ h''⟩
        · rcases h' with ⟨t', ht', hmem⟩
          right; exact ⟨t', List.mem_cons_of_mem t ht', hmem⟩
    rcases aux texts [] h with h' | h'
    · simp at h'
    · exact h'

/-- C6: the market-concentration label is determined by the exact
Herfindahl-style index thresholds: "High" exactly when the index exceeds
1/4, "Medium" exactly when it is at most 1/4 but exceeds 3/20, and the
fragmented label otherwise. -/
theorem market_concentration_thresholds (brands : List (String × Nat))
    (h : TrendAnalysisService.totalBrandAds brands ≠ 0) :
    (TrendAnalysisService._calculate_market_concentration brands =
        "High concentration (few dominant players)" ↔ 1/4 < TrendAnalysisService.hhiOf brands) ∧
    (TrendAnalysisService._calculate_market_concentration brands =
        "Medium concentration" ↔
      (TrendAnalysisService.hhiOf brands ≤ 1/4 ∧ 3/20 < TrendAnalysisService.hhiOf brands)) ∧
    (TrendAnalysisService._calculate_market_concentration brands =
        "Low concentration (fragmented market)" ↔
      TrendAnalysisService.hhiOf brands ≤ 3/20) := by
  unfold TrendAnalysisService._calculate_market_concentration
  rw [if_neg h]
  by_cases h1 : (1 : ℚ)/4 < TrendAnalysisService.hhiOf brands
  · rw [if_pos h1]
    refine ⟨⟨fun _ => h1, fun _ => rfl⟩, ⟨fun hEq => absurd hEq (by decide), ?_⟩,
      ⟨fun hEq => absurd hEq (by decide), fun hle => ?_⟩⟩
    · rintro ⟨hle, _⟩; exact absurd h1 (not_lt.mpr hle)
    · have : (1 : ℚ)/4 < 3/20 := lt_of_lt_of_le h1 hle
      norm_num at this
  · rw [if_neg h1]
    by_cases h2 : (3 : ℚ)/20 < TrendAnalysisService.hhiOf brands
    · rw [if_pos h2]
      refine ⟨⟨fun hEq => absurd hEq (by decide), fun hlt => absurd hlt h1⟩,
        ⟨fun _ => ⟨not_lt.mp h1, h2⟩, fun _ => rfl⟩,
        ⟨fun hEq => absurd hEq (by decide), fun hle => absurd h2 (not_lt.mpr hle)⟩⟩
    · rw [if_neg h2]
      refine ⟨⟨fun hEq => absurd hEq (by decide), fun hlt => absurd hlt h1⟩,
        ⟨fun hEq => absurd hEq (by decide), fun hml => absurd hml.2 h2⟩,
        ⟨fun _ => not_lt.mp h2, fun _ => rfl⟩⟩

/-- C6 (witness): ten brands with one ad each have index 1/10, hence the
fragmented label; one brand with all 10 ads has index 1, hence "High". -/
theorem market_concentration_thresholds_witness :
    TrendAnalysisService.totalBrandAds exTenBrands ≠ 0 ∧
    (TrendAnalysisService._calculate_market_concentration exTenBrands =
        "Low concentration (fragmented market)" ↔
      TrendAnalysisService.hhiOf exTenBrands ≤ 3/20) ∧
    TrendAnalysisService._calculate_market_concentration exTenBrands =
      "Low concentration (fragmented market)" ∧
    TrendAnalysisService._calculate_market_concentration exOneBrand =
      "High concentration (few dominant players)" := by
  refine ⟨by decide, (market_concentration_thresholds exTenBrands (by decide)).2.2, ?_, ?_⟩
  · show TrendAnalysisService._calculate_market_concentration exTenBrands = _
    unfold TrendAnalysisService._calculate_market_concentration
    rw [if_neg (by decide : ¬ TrendAnalysisService.totalBrandAds exTenBrands = 0)]
    have hv : TrendAnalysisService.hhiOf exTenBrands = 1/10 := by
      unfold TrendAnalysisService.hhiOf TrendAnalysisService.totalBrandAds exTenBrands
      norm_num
    rw [hv]
    norm_num
  · unfold TrendAnalysisService._calculate_market_concentration
    rw [if_neg (by decide : ¬ TrendAnalysisService.totalBrandAds exOneBrand = 0)]
    have hv : TrendAnalysisService.hhiOf exOneBrand = 1 := by
      unfold TrendAnalysisService.hhiOf TrendAnalysisService.totalBrandAds exOneBrand
      norm_num
    rw [hv]
    norm_num

/-- Supporting lemma (not itself a claim): whenever the date-pattern step
does not raise, `analyze_trends_from_ads` on a non-empty list returns the
success envelope whose metadata holds the exact total/IMAGE/VIDEO counts. -/
theorem analyze_trends_success_counts (now : PyDateTime)
    (ads_data : List TrendAnalysisService.AdRecord) (analysis_type : String)
    (dp : TrendAnalysisService.DatePatterns)
    (hne : ads_data ≠ [])
    (hdp : TrendAnalysisService._analyze_date_patterns now ads_data = .ok dp) :
    (TrendAnalysisService.analyze_trends_from_ads now ads_data analysis_type).success = true ∧
    (TrendAnalysisService.analyze_trends_from_ads now ads_data analysis_type).analysis_metadata =
      some { total_ads := ads_data.length,
             image_ads := (ads_data.filter (fun ad => ad.media_type == some "IMAGE")).length,
             video_ads := (ads_data.filter (fun ad => ad.media_type == some "VIDEO")).length,
             analysis_type := analysis_type,
             analyzed_at := pyIsoformat now } := by
  have hie : ads_data.isEmpty = false := by
    cases ads_data with
    | nil => exact absurd rfl hne
    | cons a l => rfl
  have hov : TrendAnalysisService._analyze_overview_trends now ads_data =
      .ok { total_ads_analyzed := ads_data.length,
            media_type_distribution := TrendAnalysisService.mediaTypeCounter ads_data,
            date_patterns := dp,
            top_brands := mostCommon (TrendAnalysisService.brandsCounter ads_data) 10,
            analysis_period := TrendAnalysisService._get_analysis_period ads_data } := by
    unfold TrendAnalysisService._analyze_overview_trends
    rw [hdp]
    rfl
  unfold TrendAnalysisService.analyze_trends_from_ads
  rw [hie]
  simp only [Bool.false_eq_true, if_false, hov]
  exact ⟨trivial, trivial⟩

/-- C1 (evaluation at the failing input): on the non-empty two-ad list whose
start dates mix a `Z`-suffixed (aware) and a bare (naive) timestamp, the
engine does NOT return a success envelope with the media-type counts — the
aware/naive comparison in `_analyze_date_patterns` raises, and the whole
analysis collapses to the failure envelope with no `analysis_metadata`. -/
theorem trend_analysis_mixed_tz_breaks_metadata :
    exAdsMixedTz ≠ [] ∧
    (TrendAnalysisService.analyze_trends_from_ads exNow exAdsMixedTz "comprehensive").success = false ∧
    (TrendAnalysisService.analyze_trends_from_ads exNow exAdsMixedTz "comprehensive").analysis_metadata = none ∧
    (TrendAnalysisService.analyze_trends_from_ads exNow exAdsMixedTz "comprehensive").message =
      "Failed to analyze trends: can\x27t compare offset-naive and offset-aware datetimes" := by
  refine ⟨by simp [exAdsMixedTz], rfl, rfl, rfl⟩

/-- C2 (evaluation at the failing input): `_analyze_date_patterns` compares
the RAW parsed dates with `min`/`max` — on a mix of aware and naive start
dates it raises the aware/naive `TypeError` — while `_get_analysis_period`
on the very same ads normalizes to naive first and succeeds. -/
theorem date_patterns_mixed_tz_raises :
    TrendAnalysisService._analyze_date_patterns exNow exAdsMixedTz =
      Except.error "can\x27t compare offset-naive and offset-aware datetimes" ∧
    TrendAnalysisService._get_analysis_period exAdsMixedTz =
      TrendAnalysisService.AnalysisPeriod.period "2024-01-01T00:00:00" "2024-01-05T00:00:00" 4 :=
  ⟨rfl, rfl⟩

theorem https_not_prefix_http (x : List Char) :
    "https://".data.isPrefixOf ("http://".data ++ x) = false := by
  by_contra hcon
  rw [Bool.not_eq_false] at hcon
  rcases List.isPrefixOf_iff_prefix.mp hcon with ⟨t, ht⟩
  have h8 : "https://".data = 'h' :: 't' :: 't' :: 'p' :: 's' :: ':' :: '/' :: '/' :: [] := rfl
  have h7 : "http://".data = 'h' :: 't' :: 't' :: 'p' :: ':' :: '/' :: '/' :: [] := rfl
  rw [h8, h7] at ht
  simp at ht

theorem matchUrlAt_isSome_append {tok : List Char}
    (htok : WebpageAnalyzerService.IsUrlToken tok) (suf : List Char) :
    (WebpageAnalyzerService.matchUrlAt (tok ++ suf)).isSome = true := by
  obtain ⟨scheme, run, rfl, hsch, hrun, hall⟩ := htok
  cases run with
  | nil => exact absurd rfl hrun
  | cons r rs =>
    have hr : WebpageAnalyzerService.urlAllowedChar r = true := hall r (List.mem_cons_self r rs)
    rw [List.append_assoc]
    rcases hsch with h7 | h8
    · subst h7
      have hfalse := https_not_prefix_http ((r :: rs) ++ suf)
      have htrue : "http://".data.isPrefixOf ("http://".data ++ ((r :: rs) ++ suf)) = true :=
        List.isPrefixOf_iff_prefix.mpr ⟨(r :: rs) ++ suf, rfl⟩
      have hdrop : ("http://".data ++ ((r :: rs) ++ suf)).drop 7 = (r :: rs) ++ suf := by
        have hl : ("http://".data).length = 7 := rfl
        rw [← hl, List.drop_left]
      unfold WebpageAnalyzerService.matchUrlAt
      rw [hfalse]
      simp only [Bool.false_eq_true, if_false, htrue, if_true, hdrop]
      simp [List.takeWhile_cons, hr]
    · subst h8
      have htrue : "https://".data.isPrefixOf ("https://".data ++ ((r :: rs) ++ suf)) = true :=
        List.isPrefixOf_iff_prefix.mpr ⟨(r :: rs) ++ suf, rfl⟩
      have hdrop : ("https://".data ++ ((r :: rs) ++ suf)).drop 8 = (r :: rs) ++ suf := by
        have hl : ("https://".data).length = 8 := rfl
        rw [← hl, List.drop_left]
      unfold WebpageAnalyzerService.matchUrlAt
      rw [htrue]
      simp only [if_true, hdrop]
      simp [List.takeWhile_cons, hr]

theorem token_of_matchUrlAt {cs m : List Char}
    (h : WebpageAnalyzerService.matchUrlAt cs = some m) :
    ∃ suf, cs = m ++ suf ∧ WebpageAnalyzerService.IsUrlToken m := by
  unfold WebpageAnalyzerService.matchUrlAt at h
  by_cases h8 : "https://".data.isPrefixOf cs
  · rw [if_pos h8] at h
    rcases List.isPrefixOf_iff_prefix.mp h8 with ⟨t, ht⟩
    have hdrop : cs.drop 8 = t := by
      rw [← ht]
      have hl : ("https://".data).length = 8 := rfl
      rw [← hl, List.drop_left]
    rw [hdrop] at h
    by_cases hemp : (t.takeWhile WebpageAnalyzerService.urlAllowedChar).isEmpty = true
    · rw [if_pos hemp] at h; cases h
    · rw [if_neg hemp] at h
      have hm : m = "https://".data ++ t.takeWhile WebpageAnalyzerService.urlAllowedChar :=
        (Option.some.injEq _ _ ▸ h).symm
      refine ⟨t.dropWhile WebpageAnalyzerService.urlAllowedChar, ?_, ?_⟩
      · rw [hm, ← ht, List.append_assoc, List.takeWhile_append_dropWhile]
      · refine ⟨"https://".data, t.takeWhile WebpageAnalyzerService.urlAllowedChar, hm, Or.inr rfl, ?_, ?_⟩
        · intro hnil
          rw [hnil] at hemp
          exact hemp rfl
        · intro c hc
          exact List.mem_takeWhile_imp hc
  · rw [if_neg h8] at h
    by_cases h7 : "http://".data.isPrefixOf cs
    · rw [if_pos h7] at h
      rcases List.isPrefixOf_iff_prefix.mp h7 with ⟨t, ht⟩
      have hdrop : cs.drop 7 = t := by
        rw [← ht]
        have hl : ("http://".data).length = 7 := rfl
        rw [← hl, List.drop_left]
      rw [hdrop] at h
      by_cases hemp : (t.takeWhile WebpageAnalyzerService.urlAllowedChar).isEmpty = true
      · rw [if_pos hemp] at h; cases h
      · rw [if_neg hemp] at h
        have hm : m = "http://".data ++ t.takeWhile WebpageAnalyzerService.urlAllowedChar :=
          (Option.some.injEq _ _ ▸ h).symm
        refine ⟨t.dropWhile WebpageAnalyzerService.urlAllowedChar, ?_, ?_⟩
        · rw [hm, ← ht, List.append_assoc, List.takeWhile_append_dropWhile]
        · refine ⟨"http://".data, t.takeWhile WebpageAnalyzerService.urlAllowedChar, hm, Or.inl rfl, ?_, ?_⟩
          · intro hnil
            rw [hnil] at hemp
            exact hemp rfl
          · intro c hc
            exact List.mem_takeWhile_imp hc
    · rw [if_neg h7] at h; cases h

theorem urlSearch_isSome_iff :
    ∀ cs : List Char, (WebpageAnalyzerService.urlSearch cs).isSome = true ↔
      ∃ pre tok suf, cs = pre ++ tok ++ suf ∧ WebpageAnalyzerService.IsUrlToken tok := by
  intro cs
  induction cs with
  | nil =>
    constructor
    · intro h; simp [WebpageAnalyzerService.urlSearch] at h
    · rintro ⟨pre, tok, suf, heq, scheme, run, rfl, hsch, -, -⟩
      have hnil : pre = [] ∧ scheme = [] ∧ run = [] ∧ suf = [] := by
        simpa using heq.symm
      rcases hsch with h | h <;> rw [hnil.2.1] at h <;> simp at h
  | cons c rest ih =>
    cases hm : WebpageAnalyzerService.matchUrlAt (c :: rest) with
    | some m =>
      have hup : WebpageAnalyzerService.urlSearch (c :: rest) = some m := by
        simp [WebpageAnalyzerService.urlSearch, hm]
      constructor
      · intro _
        obtain ⟨suf, heq, htok⟩ := token_of_matchUrlAt hm
        exact ⟨[], m, suf, by simpa using heq, htok⟩
      · intro _; simp [hup]
    | none =>
      have hup : WebpageAnalyzerService.urlSearch (c :: rest) =
          WebpageAnalyzerService.urlSearch rest := by
        simp [WebpageAnalyzerService.urlSearch, hm]
      rw [hup, ih]
      constructor
      · rintro ⟨pre, tok, suf, heq, htok⟩
        exact ⟨c :: pre, tok, suf, by simp [heq], htok⟩
      · rintro ⟨pre, tok, suf, heq, htok⟩
        cases pre with
        | cons p ps =>
          have h2 : c = p ∧ rest = ps ++ tok ++ suf := by simpa using heq
          exact ⟨ps, tok, suf, h2.2, htok⟩
        | nil =>
          have heq' : c :: rest = tok ++ suf := by simpa using heq
          have hsome := matchUrlAt_isSome_append htok suf
          rw [← heq', hm] at hsome
          cases hsome

/-- C7: `is_valid_url` is true exactly when the text contains a substring
matched by the permissive URL pattern (`http[s]://` followed by one or more
allowed characters), and on the concrete examples `is_valid_url` /
`extract_url_from_text` behave as the specification states. -/
theorem url_pattern_detection :
    (∀ s : String, WebpageAnalyzerService.is_valid_url s = true ↔ WebpageAnalyzerService.ContainsUrl s) ∧
    WebpageAnalyzerService.is_valid_url "check out https://example.com/page?q=1 today" = true ∧
    WebpageAnalyzerService.extract_url_from_text "check out https://example.com/page?q=1 today" =
      some "https://example.com/page?q=1" ∧
    WebpageAnalyzerService.is_valid_url "no links here" = false ∧
    WebpageAnalyzerService.extract_url_from_text "no links here" = none := by
  refine ⟨fun s => urlSearch_isSome_iff s.data, by decide, by decide, by decide, by decide⟩

/-- C8: with non-empty `user_query` and `trends_data`, a `generator_type`
whose lower-cased form is outside the supported set behaves exactly as
`"veo"`: the whole result (and in particular `technical_specifications`)
equals the result for the `veo` generator. -/
theorem unknown_generator_falls_back_to_veo
    (user_query : String) (trends_data : VideoGeneratorService.TrendsData)
    (generator_type : String) (style_preferences : Option VideoGeneratorService.StylePreferences)
    (hq : user_query ≠ "") (ht : trends_data.nonempty = true)
    (hg : pyLower generator_type ∉ VideoGeneratorService.supported_generators) :
    VideoGeneratorService.generate_video_description user_query trends_data generator_type style_preferences =
      VideoGeneratorService.generate_video_description user_query trends_data "veo" style_preferences ∧
    (VideoGeneratorService.generate_video_description user_query trends_data generator_type style_preferences).techSpecs =
      some (VideoGeneratorService._generate_technical_specs
        (VideoGeneratorService._extract_trend_insights trends_data) "veo") := by
  have hc : ¬ (VideoGeneratorService.supported_generators.contains (pyLower generator_type) = true) := by
    simpa using hg
  have h1 : VideoGeneratorService.resolveGenerator generator_type = "veo" := by
    unfold VideoGeneratorService.resolveGenerator
    rw [if_neg hc]
  have h2 : VideoGeneratorService.resolveGenerator "veo" = "veo" := rfl
  have hcond : (decide (user_query = "") || !trends_data.nonempty) = false := by
    simp [hq, ht]
  constructor
  · unfold VideoGeneratorService.generate_video_description
    rw [h1, h2]
  · unfold VideoGeneratorService.generate_video_description
    rw [h1]
    simp only [hcond, Bool.false_eq_true, if_false]
    rfl

/-- C8 (witness): the concrete unknown generator `"unknown_gen"` with a
non-empty query and a truthy trend payload. -/
theorem unknown_generator_falls_back_to_veo_witness :
    VideoGeneratorService.generate_video_description "Make an ad" exTrendsData "unknown_gen" none =
      VideoGeneratorService.generate_video_description "Make an ad" exTrendsData "veo" none ∧
    (VideoGeneratorService.generate_video_description "Make an ad" exTrendsData "unknown_gen" none).techSpecs =
      some (VideoGeneratorService._generate_technical_specs
        (VideoGeneratorService._extract_trend_insights exTrendsData) "veo") :=
  unknown_generator_falls_back_to_veo "Make an ad" exTrendsData "unknown_gen" none
    (by decide) rfl (by decide)

/-- C9: both generation pipelines always produce exactly 3 variations: the
two variation builders return 3-element lists for every input, and every
success envelope of either entry point carries a 3-element `variations`
list. -/
theorem variations_always_three :
    (∀ (base_description : String) (trend_insights : VideoGeneratorService.TrendInsights)
        (generator_type : String),
      (VideoGeneratorService._create_unique_variations base_description trend_insights generator_type).length = 3) ∧
    (∀ (user_query : String) (combined_insights : VideoGeneratorService.CombinedInsights)
        (generator_type : String) (sp : Option VideoGeneratorService.StylePreferences),
      (VideoGeneratorService._create_video_variations user_query combined_insights generator_type sp).length = 3) ∧
    (∀ (user_query : String) (trends_data : VideoGeneratorService.TrendsData)
        (generator_type : String) (sp : Option VideoGeneratorService.StylePreferences),
      user_query ≠ "" → trends_data.nonempty = true →
      (VideoGeneratorService.generate_video_description user_query trends_data generator_type sp).variationsLen = some 3) ∧
    (∀ (user_query : String) (video_insights : List VideoGeneratorService.VideoInsight)
        (generator_type : String) (sp : Option VideoGeneratorService.StylePreferences),
      user_query ≠ "" → video_insights ≠ [] →
      (VideoGeneratorService.generate_video_description_from_insights user_query video_insights generator_type sp).variationsLen = some 3) := by
  refine ⟨fun _ _ _ => rfl, fun _ _ _ _ => rfl, ?_, ?_⟩
  · intro q td g sp hq ht
    have hcond : (decide (q = "") || !td.nonempty) = false := by simp [hq, ht]
    unfold VideoGeneratorService.generate_video_description
    simp only [hcond, Bool.false_eq_true, if_false]
    rfl
  · intro q vi g sp hq hvi
    have hie : vi.isEmpty = false := by
      cases vi with
      | nil => exact absurd rfl hvi
      | cons a l => rfl
    have hcond : (decide (q = "") || vi.isEmpty) = false := by simp [hq, hie]
    unfold VideoGeneratorService.generate_video_description_from_insights
    simp only [hcond, Bool.false_eq_true, if_false]
    rfl

/-- C9 (witness): the success envelopes of both paths at concrete inputs
carry exactly 3 variations. -/
theorem variations_always_three_witness :
    (VideoGeneratorService.generate_video_description "Make an ad" exTrendsData "veo" none).variationsLen = some 3 ∧
    (VideoGeneratorService.generate_video_description_from_insights "Make an ad" [exInsight] "veo" none).variationsLen = some 3 :=
  ⟨variations_always_three.2.2.1 "Make an ad" exTrendsData "veo" none (by decide) rfl,
   variations_always_three.2.2.2 "Make an ad" [exInsight] "veo" none (by decide) (by simp)⟩

/-- C10: for every insight list (in particular every non-empty one), with or
without a webpage brief, the compiled script contains all 5 literal scene
headers with their literal time ranges. -/
theorem script_contains_scene_headers (insights : List VideoGeneratorService.VideoInsight)
    (user_query generator_type : String)
    (webpage_analysis : Option ApiServer.WebpageAnalysis)
    (hne : insights ≠ []) :
    ∀ hdr ∈ ApiServer.sceneHeaders,
      pyIn hdr (ApiServer.generate_video_prompt_from_insights insights user_query
        generator_type webpage_analysis) = true := by
  intro hdr hhdr
  have := hne
  apply pyIn_concatAll_of_mem
  fin_cases hhdr <;>
    simp [ApiServer.scriptSegments, ApiServer.sceneHeaders]

/-- C10 (witness): a concrete one-insight list, no webpage brief. -/
theorem script_contains_scene_headers_witness :
    ([exInsight] ≠ ([] : List VideoGeneratorService.VideoInsight)) ∧
    ∀ hdr ∈ ApiServer.sceneHeaders,
      pyIn hdr (ApiServer.generate_video_prompt_from_insights [exInsight]
        "Promote my product" "veo" none) = true :=
  ⟨by simp, script_contains_scene_headers [exInsight] "Promote my product" "veo" none (by simp)⟩
